import Mathlib

/-!
Shallow embedding of the data-handling code in the notebook
`old_pipeline_demos/JWST-ERS-01386-stage3_example.ipynb` of the
Coronagraphy_ExampleNB repository, together with theorems settling the
frozen claims about it.

Conventions used throughout:
* a FITS image pixel is `Option ℚ`: `none` models IEEE NaN, `some q` a
  finite value (the notebook never relies on infinities or on float
  rounding, only on NaN propagation and NaN-ignoring reductions);
* a numpy n-dimensional array is a shape (list of axis lengths) plus its
  C-order flattened data;
* file contents are byte lists, paths are component lists;
* Python exceptions are modelled with `Except`, a caught exception with
  the `continue` branch it triggers.
-/

/-! ## FITS headers and `organize_files_by_hdr` (claims C8, C9)

The notebook cell:

    def organize_files_by_hdr(files, extnum=0):
        hdrs = []
        for f in data_files:
            hdr = fits.getheader(str(f), 0)
            hdr = pd.Series(hdr)
            drop_index = hdr.index[hdr.index.duplicated()]
            hdr.drop(index=drop_index, inplace=True)
            for label in ['','COMMENT']:
                try:
                    hdr.drop(labels=label)
                except KeyError:
                    pass
            hdrs.append(hdr)
        hdr_df = pd.concat(hdrs, axis=1).T
        return hdr_df
-/

/-- A FITS header as an ordered list of (keyword, value) cards; keywords may
repeat (for example the blank keyword and COMMENT). This is also the model of
the `pd.Series` built from the header: an index/value sequence. -/
abbrev HeaderKV : Type := List (String × String)

/-- The labels marked by `hdr.index.duplicated()`: every occurrence of a label
that has already appeared earlier in the index, in order, kept with
multiplicity (pandas marks second and later occurrences). The `seen`
accumulator holds the labels already traversed. -/
def dup_marked (seen : List String) : List String → List String
  | [] => []
  | l :: ls => if l ∈ seen then l :: dup_marked (l :: seen) ls else dup_marked (l :: seen) ls

/-- `hdr.drop(index=labels, inplace=True)`: removes every card whose keyword is
one of `labels` (pandas label-based drop removes all rows carrying a dropped
label, including the first occurrence). -/
def drop_index (hdr : HeaderKV) (labels : List String) : HeaderKV :=
  hdr.filter (fun kv => ¬ kv.1 ∈ labels)

/-- `hdr.drop(labels=label)` without `inplace`: returns a NEW series with every
card of that label removed, raising `KeyError` when the label is absent. The
original series is not modified; in the notebook the returned value is
discarded. -/
def series_drop (hdr : HeaderKV) (label : String) : Except Unit HeaderKV :=
  if label ∈ hdr.map Prod.fst then .ok (hdr.filter (fun kv => ¬ kv.1 = label)) else .error ()

/-- The per-file body of `organize_files_by_hdr`: drop the duplicated index
labels in place, then evaluate the two label drops whose results the notebook
discards (`hdr.drop(labels=label)` is not reassigned, and its `KeyError` is
swallowed), and return the series that actually flows on. -/
def process_header (hdr : HeaderKV) : HeaderKV :=
  let hdr1 := drop_index hdr (dup_marked [] (hdr.map Prod.fst))
  let _discard1 := series_drop hdr1 ""
  let _discard2 := series_drop hdr1 "COMMENT"
  hdr1

/-- `organize_files_by_hdr files extnum`: the loop iterates over the global
`data_files` (not over the `files` argument) and always reads header extension
0 (not `extnum`); the resulting dataframe is the list of processed header rows,
one per global data file. `getheader f e` models `fits.getheader(str(f), e)`. -/
def organize_files_by_hdr (files : List String) (extnum : Nat)
    (data_files : List String) (getheader : String → Nat → HeaderKV) : List HeaderKV :=
  let _ignored := (files, extnum)
  data_files.map (fun f => process_header (getheader f 0))

/-- Number of cards of `hdr` carrying keyword `l`. -/
def label_count (hdr : HeaderKV) (l : String) : Nat :=
  (hdr.filter (fun kv => kv.1 = l)).length

/-! ## Numpy arrays (claims C2, C3, C10)

An n-dimensional array is its shape together with the C-order (row-major)
flattened data. Pixels are `Option ℚ` with `none` playing the role of NaN.
-/

/-- A pixel value: `none` is NaN, `some q` a finite value. -/
abbrev Pix : Type := Option ℚ

/-- A numpy n-dimensional array: shape and C-order flattened data. -/
structure NDArr : Type where
  shape : List Nat
  data : List Pix
  deriving DecidableEq

/-- `np.ndim`: the number of axes. -/
def NDArr.ndim (a : NDArr) : Nat := a.shape.length

/-- Total number of elements of a shape (`np.prod(shape)`). -/
def shapeSize (s : List Nat) : Nat := s.prod

/-- Insert a rational into a `≤`-sorted list, keeping it sorted. -/
def insertLe (x : ℚ) : List ℚ → List ℚ
  | [] => [x]
  | y :: ys => if x ≤ y then x :: y :: ys else y :: insertLe x ys

/-- Insertion sort of rationals into nondecreasing order. -/
def sortLe : List ℚ → List ℚ
  | [] => []
  | x :: xs => insertLe x (sortLe xs)

/-- `np.nanmin` over a 1-D slice: minimum of the non-NaN values, NaN when every
value is NaN (numpy emits an all-NaN-slice warning and returns NaN). -/
def nanmin (xs : List Pix) : Pix :=
  match xs.filterMap id with
  | [] => none
  | y :: ys => some (ys.foldl min y)

/-- `np.nanmean` over a 1-D slice: arithmetic mean of the non-NaN values, NaN
when every value is NaN. -/
def nanmean (xs : List Pix) : Pix :=
  match xs.filterMap id with
  | [] => none
  | y :: ys => some ((y :: ys).sum / ((y :: ys).length : ℚ))

/-- `np.nanmedian` over a 1-D slice: the median of the non-NaN values (mean of
the two middle order statistics when their number is even), NaN when every
value is NaN. -/
def nanmedian (xs : List Pix) : Pix :=
  match sortLe (xs.filterMap id) with
  | [] => none
  | y :: ys =>
    let s := y :: ys
    let m := s.length
    if m % 2 = 1 then some (s.getD (m / 2) 0)
    else some ((s.getD (m / 2 - 1) 0 + s.getD (m / 2) 0) / 2)

/-- `np.stack(imgs)`: a new leading axis of length `imgs.length`; raises
(returns `none`) when the list is empty or the shapes disagree. The flattened
data of the stack is the concatenation of the parts' flattened data. -/
def np_stack (imgs : List NDArr) : Option NDArr :=
  match imgs with
  | [] => none
  | a :: rest =>
    if rest.all (fun b => b.shape = a.shape) then
      some ⟨imgs.length :: a.shape, (imgs.map NDArr.data).flatten⟩
    else none

/-- Reduction of an array along its leading axis (`axis=0`) with a 1-D slice
reducer `f`: entry `i` of the result is `f` applied to the axis-0 fibre over
`i`. Raises (returns `none`) on a 0-dimensional input. -/
def reduceAxis0 (f : List Pix → Pix) (a : NDArr) : Option NDArr :=
  match a.shape with
  | [] => none
  | s0 :: rest =>
    some ⟨rest, (List.range (shapeSize rest)).map
      (fun i => f ((List.range s0).map (fun k => a.data.getD (k * shapeSize rest + i) none)))⟩

/-- The composite-background combination of one background group, from the
notebook cell

    bgnd_img = np.stack([fits.getdata(data_folder / f, 1) for f in files])
    func = np.nanmedian if len(files) > 2 else np.nanmin
    bgnd_img = func(bgnd_img, axis=0)

`imgs` is the list of HDU-1 images of the group's files, in order. -/
def combine_bgnd_group (imgs : List NDArr) : Option NDArr := do
  let stacked ← np_stack imgs
  reduceAxis0 (if imgs.length > 2 then nanmedian else nanmin) stacked

/-- One step of the dimension-flattening loops (`np.nanmean(img, axis=0)` and,
in the plotting cell, `img.mean(axis=0)` — both reduce along axis 0 and remove
exactly that axis). -/
def nanmean_axis0 (a : NDArr) : Option NDArr := reduceAxis0 nanmean a

/-- The flattening loop `while np.ndim(img) > 2: img = np.nanmean(img, axis=0)`
run with explicit fuel; `none` means the fuel was exhausted (or a reduction
raised) before the condition `ndim ≤ 2` was reached. -/
def flatten_loop : Nat → NDArr → Option NDArr
  | fuel, a =>
    if a.ndim ≤ 2 then some a
    else
      match fuel with
      | 0 => none
      | fuel' + 1 =>
        match nanmean_axis0 a with
        | some b => flatten_loop fuel' b
        | none => none

/-- NaN-propagating subtraction of two pixels (`x - y` in numpy: NaN when
either operand is NaN). -/
def pixSub (x y : Pix) : Pix :=
  match x, y with
  | some a, some b => some (a - b)
  | _, _ => none

/-- Elementwise subtraction `targ - bgnd` in the case exercised by the
notebook, where the shape of `bgnd` is a trailing suffix of the shape of
`targ` (numpy then broadcasts `bgnd` along the leading axes: in C order, entry
`i` of the result is `targ[i] - bgnd[i % size(bgnd)]`). Shapes that are not in
this relation return `none`; the general numpy size-1-axis broadcast is not
needed by the notebook and is not modelled. -/
def broadcast_sub (targ bgnd : NDArr) : Option NDArr :=
  if bgnd.shape ≠ [] ∧ bgnd.shape <:+ targ.shape then
    some ⟨targ.shape, (List.range (shapeSize targ.shape)).map
      (fun i => pixSub (targ.data.getD i none) (bgnd.data.getD (i % shapeSize bgnd.shape) none))⟩
  else none

/-- The subtraction cell

    for targ_file, pair in bgnd_img_mapper.items():
        img = pair['targ'] - pair['bgnd']
        bgnd_sub_imgs[targ_file] = img

over a mapper given as an association list of (file name, (targ, bgnd)). -/
def bgnd_sub_imgs (mapper : List (String × (NDArr × NDArr))) :
    List (String × Option NDArr) :=
  mapper.map (fun e => (e.1, broadcast_sub e.2.1 e.2.2))

/-! ## Files, paths and the MAST download loop (claims C1, C7) -/

/-- Python exceptions that the modelled code can raise. -/
inductive PyExn : Type where
  | nameError (nm : String)
  | keyError (k : String)
  | indexError
  | fileNotFound
  deriving DecidableEq

/-- Association-list lookup (first binding wins, as in an assoc list whose keys
are unique). -/
def alookup {α β : Type} [DecidableEq α] : List (α × β) → α → Option β
  | [], _ => none
  | kv :: rest, x => if x = kv.1 then some kv.2 else alookup rest x

/-- Association-list update: replace the first binding of the key, or append a
new binding at the end (dictionary/file-system write). -/
def aset {α β : Type} [DecidableEq α] : List (α × β) → α → β → List (α × β)
  | [], x, v => [(x, v)]
  | kv :: rest, x, v => if x = kv.1 then (x, v) :: rest else kv :: aset rest x v

/-- A path, as its list of components (`os.path.join(d, p)` appends one
component). -/
abbrev FPath : Type := List String

/-- The directory contents seen by the download loop: a map from paths to byte
contents. -/
abbrev ByteFS : Type := List (FPath × List Nat)

/-- `r.raise_for_status()` raises `HTTPError` exactly for status codes 400 and
above (client and server errors). -/
def raise_for_status_raises (status : Nat) : Bool := 400 ≤ status

/-- `r.iter_content(chunk_size=bs)`: the content split into consecutive chunks
of `bs` bytes (the last chunk possibly shorter), written with explicit fuel so
the definition is structural; `content.length` fuel suffices for `bs ≥ 1`. -/
def iter_content_fuel : Nat → Nat → List Nat → List (List Nat)
  | 0, _, _ => []
  | fuel + 1, bs, content =>
    match content with
    | [] => []
    | _ => content.take bs :: iter_content_fuel fuel bs (content.drop bs)

/-- `r.iter_content(chunk_size=bs)` with enough fuel for the whole content. -/
def iter_content (bs : Nat) (content : List Nat) : List (List Nat) :=
  iter_content_fuel content.length bs content

/-- The names assigned by the download cell before the write is reached: the
cell assigns `block_dataze = 1024000` (and never assigns `block_size`). -/
def download_env : List (String × Nat) := [("block_dataze", 1024000)]

/-- One iteration of the download loop

    for i, p in enumerate(products):
        r = requests.get(mast_url, params=dict(uri=uri_prefix+p), stream=True)
        try:
            r.raise_for_status()
        except Exception as e:
            print(e); print(f"Download failed for ..."); continue
        outfile = os.path.join(out_dir, p)
        if os.path.isfile(outfile):
            print(f"... already exists, skipping."); continue
        else:
            with open(outfile, 'wb') as fd:
                for data in r.iter_content(chunk_size=block_size):
                    fd.write(data)
        ...

for one product `p`, where `status` and `content` are the HTTP status and body
of the response for `p`, and `env` is the set of assigned local names
(chunk-size variables) in scope. A caught exception prints and continues, so it
yields `.ok` with the file system unchanged; reading the unassigned name
`block_size` raises `NameError`. -/
def download_iteration (env : List (String × Nat)) (fs : ByteFS) (out_dir : FPath)
    (p : String) (status : Nat) (content : List Nat) : Except PyExn ByteFS :=
  if raise_for_status_raises status then .ok fs
  else
    let outfile := out_dir ++ [p]
    if (alookup fs outfile).isSome then .ok fs
    else
      match alookup env "block_size" with
      | none => .error (.nameError "block_size")
      | some bs => .ok (aset fs outfile (iter_content bs content).flatten)

/-! ## Observation numbers and background matching (claim C4) -/

/-- `Path(f).name[7:10]`: the slice of the file name from character position 7
up to (excluding) position 10. -/
def obsnum_of (name : String) : String := ⟨(name.data.drop 7).take 3⟩

/-- `obsnum_filenames = {f.name: Path(f).name[7:10] for f in data_files}` as an
ordered association list (the notebook's data file names are pairwise
distinct, so the dict and the list agree). -/
def mk_obsnum_filenames (data_file_names : List String) : List (String × String) :=
  data_file_names.map (fun f => (f, obsnum_of f))

/-- The target observation numbers of the matching cell. -/
def targ_obsnums : List String :=
  ["019", "020", "021", "022", "023", "024", "025", "026", "027"]

/-- The (target, background) observation-number pairs of the matching cell. -/
def bgnd_obsnum_mapper : List (String × String) :=
  [("019", "032"), ("020", "032"), ("021", "033"),
   ("022", "034"), ("023", "034"), ("024", "035"),
   ("025", "035"), ("026", "036"), ("027", "037")]

/-- `dict(pairs)[k]`: in a Python dict built from a pair list, a later binding
of a key overrides an earlier one, hence lookup on the reversed list. -/
def py_dict_get (pairs : List (String × String)) (k : String) : Option String :=
  alookup pairs.reverse k

/-- The cell

    bgnd_img_mapper = {}
    for f, targ_obsnum in obsnum_filenames.items():
        if targ_obsnum not in targ_obsnums:
            continue
        else:
            targ_img = fits.getdata(data_folder / f, 1)
            bgnd_obsnum = dict(bgnd_obsnum_mapper)[targ_obsnum]
            bgnd_img = bgnd_imgs[bgnd_obsnum]
            bgnd_img_mapper[f] = {'targ': targ_img, 'bgnd': bgnd_img}

`getdata1 f` models `fits.getdata(data_folder / f, 1)`, `bg_imgs` is the
`bgnd_imgs` dict as an association list; `none` models an uncaught `KeyError`
in either dict lookup. -/
def build_bgnd_img_mapper (obsnum_fns : List (String × String))
    (getdata1 : String → NDArr) (bg_imgs : List (String × NDArr)) :
    Option (List (String × (NDArr × NDArr))) :=
  match obsnum_fns with
  | [] => some []
  | fn :: rest =>
    if fn.2 ∈ targ_obsnums then
      match py_dict_get bgnd_obsnum_mapper fn.2 with
      | none => none
      | some bnum =>
        match alookup bg_imgs bnum with
        | none => none
        | some bimg =>
          (build_bgnd_img_mapper rest getdata1 bg_imgs).map
            (fun m => (fn.1, (getdata1 fn.1, bimg)) :: m)
    else build_bgnd_img_mapper rest getdata1 bg_imgs

/-! ## Writing background-subtracted FITS files: `write_bgsub` (claim C5) -/

/-- One FITS HDU: a header and optional image data. -/
structure HDU : Type where
  header : HeaderKV
  data : Option NDArr
  deriving DecidableEq

/-- A FITS file: its list of HDUs (primary first, then extensions such as SCI
and the trailing ASDF extension). -/
abbrev FitsFile : Type := List HDU

/-- A store of FITS files on disk, from paths to parsed contents. -/
abbrev FitsStore : Type := List (FPath × FitsFile)

/-- Index of the last '.' in a character list, if any. -/
def last_dot_idx : List Char → Option Nat
  | [] => none
  | c :: cs =>
    match last_dot_idx cs with
    | some i => some (i + 1)
    | none => if c = '.' then some 0 else none

/-- `pathlib`'s split of a file name into `(stem, suffix)`: the suffix starts
at the last dot when that dot is neither the leading character nor the last
character of the name; otherwise the suffix is empty. -/
def py_stem_ext (name : String) : String × String :=
  match last_dot_idx name.data with
  | some i =>
    if 0 < i ∧ i < name.data.length - 1 then (⟨name.data.take i⟩, ⟨name.data.drop i⟩)
    else (name, "")
  | none => (name, "")

/-- The output file name built by `write_bgsub`:
`targ_file.stem + '_bgsub' + targ_file.suffix`. -/
def write_bgsub_name (targ_name : String) : String :=
  (py_stem_ext targ_name).1 ++ "_bgsub" ++ (py_stem_ext targ_name).2

/-- `write_bgsub(targ_file, img, path)`:

    def write_bgsub(targ_file, img, path):
        targ_file = Path(targ_file)
        bgsub_name = Path(path) / (targ_file.stem + '_bgsub' + targ_file.suffix)
        with fits.open(targ_file) as hdulist:
            hdus = [i.copy() for i in hdulist]
        hdus[1].data = img
        bgsub_hdulist = fits.HDUList(hdus)
        bgsub_hdulist.writeto(bgsub_name, overwrite='True')

The target file is only opened for reading; the copies are mutated and written
to the new name (`overwrite='True'` is truthy, so an existing file at the new
name is replaced). `hdus[1]` raises `IndexError` when the file has fewer than
two HDUs, and opening a missing path raises. -/
def write_bgsub (store : FitsStore) (targ_file : FPath) (img : NDArr)
    (path : FPath) : Except PyExn FitsStore :=
  match alookup store targ_file with
  | none => .error .fileNotFound
  | some hdus =>
    let bgsub_name := path ++ [write_bgsub_name (targ_file.getLastD "")]
    if 2 ≤ hdus.length then
      let hdus2 := hdus.set 1 ⟨(hdus.getD 1 ⟨[], none⟩).header, some img⟩
      .ok (aset store bgsub_name hdus2)
    else .error .indexError

/-! ## The `write_dummy_asn` association manifest (claim C6)

The notebook builds the manifest as an f-string template and writes it to
`Path(filename).with_suffix(".json")`. The embedding reproduces the exact
produced text; a small executable JSON reader (strings, arrays, objects —
the only value forms the manifest uses) settles whether that text parses as
the JSON structure the claim describes.
-/

/-- A JSON value, restricted to the forms the manifest contains. -/
inductive JVal : Type where
  | str (s : String)
  | arr (elems : List JVal)
  | obj (fields : List (String × JVal))

/-- Whitespace characters of the JSON grammar. -/
def isWsChar : Char → Bool
  | ' ' => true
  | '\n' => true
  | '\t' => true
  | '\r' => true
  | _ => false

/-- Drop leading JSON whitespace. -/
def skipWs : List Char → List Char
  | [] => []
  | c :: cs => if isWsChar c then skipWs cs else c :: cs

/-- Read the body of a JSON string literal after its opening quote, up to the
closing quote. Escapes and raw control characters are rejected: the claim's
precondition is that no character requiring escaping occurs. -/
def parseStrBody : List Char → Option (List Char × List Char)
  | [] => none
  | c :: cs =>
    if c = '\x22' then some ([], cs)
    else if c = '\x5c' ∨ c.toNat < 32 then none
    else
      match parseStrBody cs with
      | some sr => some (c :: sr.1, sr.2)
      | none => none

/-- The list begins with the given character. -/
def headIs (cs : List Char) (c : Char) : Bool :=
  match cs with
  | x :: _ => x = c
  | [] => false

mutual

/-- Read one JSON value (string, array or object); `fuel` bounds the combined
nesting depth and element count. -/
def parseVal : Nat → List Char → Option (JVal × List Char)
  | 0, _ => none
  | fuel + 1, s =>
    match skipWs s with
    | [] => none
    | c :: cs =>
      if c = '\x22' then
        match parseStrBody cs with
        | some br => some (.str ⟨br.1⟩, br.2)
        | none => none
      else if c = '[' then
        if headIs (skipWs cs) ']' then some (.arr [], (skipWs cs).tail)
        else
          match parseElems fuel (skipWs cs) with
          | some er => some (.arr er.1, er.2)
          | none => none
      else if c = '\x7b' then
        if headIs (skipWs cs) '\x7d' then some (.obj [], (skipWs cs).tail)
        else
          match parseFields fuel (skipWs cs) with
          | some fr => some (.obj fr.1, fr.2)
          | none => none
      else none

/-- Read the elements of a nonempty JSON array, consuming the closing `]`. -/
def parseElems : Nat → List Char → Option (List JVal × List Char)
  | 0, _ => none
  | fuel + 1, s =>
    match parseVal fuel s with
    | none => none
    | some vr =>
      match skipWs vr.2 with
      | [] => none
      | c :: r1 =>
        if c = ',' then
          match parseElems fuel r1 with
          | some er => some (vr.1 :: er.1, er.2)
          | none => none
        else if c = ']' then some ([vr.1], r1)
        else none

/-- Read the fields of a nonempty JSON object, consuming the closing brace. -/
def parseFields : Nat → List Char → Option (List (String × JVal) × List Char)
  | 0, _ => none
  | fuel + 1, s =>
    match skipWs s with
    | [] => none
    | c :: cs =>
      if c = '\x22' then
        match parseStrBody cs with
        | none => none
        | some kr =>
          match skipWs kr.2 with
          | [] => none
          | c2 :: r1 =>
            if c2 = ':' then
              match parseVal fuel r1 with
              | none => none
              | some vr =>
                match skipWs vr.2 with
                | [] => none
                | c3 :: r2 =>
                  if c3 = ',' then
                    match parseFields fuel r2 with
                    | some fr => some ((⟨kr.1⟩, vr.1) :: fr.1, fr.2)
                    | none => none
                  else if c3 = '\x7d' then some ([(⟨kr.1⟩, vr.1)], r2)
                  else none
            else none
      else none

end

/-- Parse a whole string as one JSON document: one value, then only trailing
whitespace. The fuel `length + 24` dominates the document's combined nesting
depth and element count, since every element or nesting level consumes at
least one character. -/
def parseJson (s : String) : Option JVal :=
  match parseVal (s.data.length + 24) s.data with
  | some vr => if skipWs vr.2 = [] then some vr.1 else none
  | none => none

/-- `'\t' * n` — a run of `n` tab characters. -/
def tabs (n : Nat) : String := ⟨List.replicate n '\t'⟩

/-- `sep.join(xs)` for Python strings. -/
def py_join (sep : String) : List String → String
  | [] => ""
  | [x] => x
  | x :: y :: rest => x ++ sep ++ py_join sep (y :: rest)

/-- One member entry of `make_entries`:

    line = lambda key, val: f"{tab*(ntabs+1)}\"expname\": \"{key}\",\n{tab*(ntabs+1)}\"exptype\": \"{val}\""
-/
def asn_line (ntabs : Nat) (key val : String) : String :=
  tabs (ntabs + 1) ++ "\x22expname\x22: \x22" ++ key ++ "\x22,\n" ++
    tabs (ntabs + 1) ++ "\x22exptype\x22: \x22" ++ val ++ "\x22"

/-- `make_entries(filedict, ntabs)`:

    lines = f"\n{tab*ntabs}}},{{\n".join(line(key, val) for key, val in filedict.items())
-/
def make_entries (filedict : List (String × String)) (ntabs : Nat) : String :=
  py_join ("\n" ++ tabs ntabs ++ "\x7d,\x7b\n")
    (filedict.map (fun kv => asn_line ntabs kv.1 kv.2))

/-- The manifest text produced by `write_dummy_asn(filename, name, filedict)`:
the f-string template with `file_str = make_entries(filedict, 5)` spliced in
(`{{`/`}}` in the Python source are literal braces). -/
def write_dummy_asn_content (name : String) (filedict : List (String × String)) : String :=
  let file_str := make_entries filedict 5
  "\x7b\n    \x22asn_type\x22: \x22coron3\x22,\n    \x22asn_rule\x22: \x22candidate_Asn_Lv3Coron\x22,\n    \x22program\x22: \x22" ++
    name ++
    "\x22,\n    \x22asn_id\x22: \x22c1001\x22,\n    \x22target\x22: \x22dummy\x22,\n    \x22asn_pool\x22: \x22" ++
    name ++
    "-pool\x22,\n    \x22products\x22: [\x7b\n        \x22name\x22: \x22" ++
    name ++
    "\x22,\n        \x22members\x22: [\x7b\n    " ++
    file_str ++
    "\n    \x7d]\n    \x7d]\n    \x7d"

/-- `Path(filename).with_suffix(".json")` on the file name: the stem with the
new suffix appended. -/
def write_dummy_asn_filename (filename : String) : String :=
  (py_stem_ext filename).1 ++ ".json"

/-- A character that a JSON string can contain verbatim, with no escaping. -/
def jsonPlainChar (c : Char) : Bool :=
  ¬ c = '\x22' ∧ ¬ c = '\x5c' ∧ 32 ≤ c.toNat

/-- A string none of whose characters requires JSON escaping. -/
def jsonPlain (s : String) : Bool := s.data.all jsonPlainChar

/-- The member object the claim expects for one filedict entry:
`{"expname": key, "exptype": value}`. -/
def member_json (kv : String × String) : JVal :=
  .obj [("expname", .str kv.1), ("exptype", .str kv.2)]

/-- The JSON structure the claim describes for the whole manifest: asn_type
"coron3", exactly one product, and one member per filedict entry. -/
def expected_asn (name : String) (filedict : List (String × String)) : JVal :=
  .obj [("asn_type", .str "coron3"),
        ("asn_rule", .str "candidate_Asn_Lv3Coron"),
        ("program", .str name),
        ("asn_id", .str "c1001"),
        ("target", .str "dummy"),
        ("asn_pool", .str (name ++ "-pool")),
        ("products", .arr [.obj [("name", .str name),
                                 ("members", .arr (filedict.map member_json))]])]

/-- Lookup of a field in a JSON object value. -/
def jget (j : JVal) (k : String) : Option JVal :=
  match j with
  | .obj fs => alookup fs k
  | _ => none

/-- The members list of a manifest: the "members" array of the single element
of the "products" array. -/
def manifest_members (j : JVal) : Option (List JVal) :=
  match jget j "products" with
  | some (.arr [p]) =>
    match jget p "members" with
    | some (.arr ms) => some ms
    | _ => none
  | _ => none

/-! ## General list lemmas -/

theorem getD_map_lt {α β : Type} (f : α → β) (d : β) (d0 : α) :
    ∀ (l : List α) (k : Nat), k < l.length → (l.map f).getD k d = f (l.getD k d0) := by
  intro l
  induction l with
  | nil => intro k hk; simp at hk
  | cons x xs ih =>
    intro k hk
    cases k with
    | zero => rfl
    | succ k =>
      simp only [List.map_cons, List.getD_cons_succ]
      exact ih k (by simpa using hk)

theorem getD_range (d : Nat) : ∀ (n i : Nat), i < n → (List.range n).getD i d = i := by
  intro n
  induction n with
  | zero => intro i hi; simp at hi
  | succ n ih =>
    intro i hi
    rw [List.range_succ_eq_map]
    cases i with
    | zero => rfl
    | succ i =>
      simp only [List.getD_cons_succ]
      rw [getD_map_lt Nat.succ d d (List.range n) i (by simpa using hi)]
      rw [ih i (by omega)]

theorem getD_flatten_uniform {α : Type} (d : α) (L : Nat) :
    ∀ (ls : List (List α)) (k i : Nat), (∀ x ∈ ls, x.length = L) → k < ls.length → i < L →
      ls.flatten.getD (k * L + i) d = (ls.getD k []).getD i d := by
  intro ls
  induction ls with
  | nil => intro k i _ hk; simp at hk
  | cons x xs ih =>
    intro k i hlen hk hi
    cases k with
    | zero =>
      have hx : x.length = L := hlen x (by simp)
      simp only [List.flatten_cons, Nat.zero_mul, Nat.zero_add, List.getD_cons_zero]
      exact List.getD_append x xs.flatten d i (by omega)
    | succ k =>
      have hx : x.length = L := hlen x (by simp)
      have hmul : (k + 1) * L = k * L + L := by ring
      simp only [List.flatten_cons, List.getD_cons_succ]
      rw [List.getD_append_right x xs.flatten d ((k + 1) * L + i) (by omega)]
      have harith : (k + 1) * L + i - x.length = k * L + i := by omega
      rw [harith]
      exact ih k i (fun y hy => hlen y (by simp [hy])) (by simpa using hk) hi

theorem map_range_getD {α β : Type} (F : α → β) (d : α) :
    ∀ (l : List α), (List.range l.length).map (fun k => F (l.getD k d)) = l.map F := by
  intro l
  induction l with
  | nil => rfl
  | cons x xs ih =>
    simp only [List.length_cons]
    rw [List.range_succ_eq_map]
    simp only [List.map_cons, List.getD_cons_zero, List.map_map]
    have hstep : List.map ((fun k => F ((x :: xs).getD k d)) ∘ Nat.succ) (List.range xs.length)
        = List.map (fun k => F (xs.getD k d)) (List.range xs.length) :=
      List.map_congr_left (fun a _ => by simp [Function.comp, List.getD_cons_succ])
    rw [hstep, ih]

/-! ## Association list and `List.set` lemmas -/

theorem alookup_aset_same {α β : Type} [DecidableEq α] :
    ∀ (l : List (α × β)) (k : α) (v : β), alookup (aset l k v) k = some v := by
  intro l
  induction l with
  | nil => intro k v; simp [aset, alookup]
  | cons kv rest ih =>
    intro k v
    by_cases hk : k = kv.1
    · simp [aset, alookup, hk]
    · simp only [aset]
      rw [if_neg hk]
      simp only [alookup]
      rw [if_neg hk]
      exact ih k v

theorem alookup_aset_other {α β : Type} [DecidableEq α] :
    ∀ (l : List (α × β)) (k k2 : α) (v : β), k2 ≠ k →
      alookup (aset l k v) k2 = alookup l k2 := by
  intro l
  induction l with
  | nil => intro k k2 v hne; simp [aset, alookup, hne]
  | cons kv rest ih =>
    intro k k2 v hne
    by_cases hk : k = kv.1
    · subst hk
      simp only [aset, if_pos rfl, alookup]
      rw [if_neg hne, if_neg hne]
    · simp only [aset, if_neg hk, alookup]
      by_cases h2 : k2 = kv.1
      · rw [if_pos h2, if_pos h2]
      · rw [if_neg h2, if_neg h2]
        exact ih k k2 v hne

theorem set_getD_same {α : Type} (d : α) :
    ∀ (l : List α) (i : Nat) (x : α), i < l.length → (l.set i x).getD i d = x := by
  intro l
  induction l with
  | nil => intro i x hi; simp at hi
  | cons y ys ih =>
    intro i x hi
    cases i with
    | zero => rfl
    | succ i =>
      simp only [List.set_cons_succ, List.getD_cons_succ]
      exact ih i x (by simpa using hi)

theorem set_getD_other {α : Type} (d : α) :
    ∀ (l : List α) (i j : Nat) (x : α), i ≠ j → (l.set i x).getD j d = l.getD j d := by
  intro l
  induction l with
  | nil => intro i j x _; simp
  | cons y ys ih =>
    intro i j x hij
    cases i with
    | zero =>
      cases j with
      | zero => exact absurd rfl hij
      | succ j => rfl
    | succ i =>
      cases j with
      | zero => rfl
      | succ j =>
        simp only [List.set_cons_succ, List.getD_cons_succ]
        exact ih i j x (fun h => hij (by rw [h]))

/-! ## Duplicated-label bookkeeping (claim C9) -/

theorem mem_dup_marked (l : String) :
    ∀ (ls seen : List String),
      l ∈ dup_marked seen ls ↔ l ∈ ls ∧ (l ∈ seen ∨ 2 ≤ ls.count l) := by
  intro ls
  induction ls with
  | nil => intro seen; simp [dup_marked]
  | cons x ls ih =>
    intro seen
    by_cases hlx : l = x
    · subst hlx
      by_cases hx : l ∈ seen
      · simp only [dup_marked, if_pos hx]
        constructor
        · intro _
          exact ⟨List.mem_cons_self l ls, Or.inl hx⟩
        · intro _
          exact List.mem_cons_self l _
      · simp only [dup_marked, if_neg hx, ih]
        rw [List.count_cons_self]
        constructor
        · rintro ⟨hmem, -⟩
          refine ⟨List.mem_cons_self l ls, Or.inr ?_⟩
          have := List.count_pos_iff.mpr hmem
          omega
        · rintro ⟨-, h | h⟩
          · exact absurd h hx
          · have h1 : 0 < ls.count l := by omega
            exact ⟨List.count_pos_iff.mp h1, Or.inl (List.mem_cons_self l seen)⟩
    · have hcnt : (x :: ls).count l = ls.count l := List.count_cons_of_ne hlx ls
      have hseen : l ∈ x :: seen ↔ l ∈ seen := by simp [List.mem_cons, hlx]
      by_cases hx : x ∈ seen
      · simp only [dup_marked, if_pos hx, List.mem_cons]
        constructor
        · rintro (h | h)
          · exact absurd h hlx
          · obtain ⟨h1, h2⟩ := (ih (x :: seen)).mp h
            refine ⟨Or.inr h1, ?_⟩
            rw [hcnt]
            rcases h2 with h2 | h2
            · exact Or.inl (hseen.mp h2)
            · exact Or.inr h2
        · rintro ⟨h1, h2⟩
          rcases h1 with h1 | h1
          · exact absurd h1 hlx
          · refine Or.inr ((ih (x :: seen)).mpr ⟨h1, ?_⟩)
            rw [hcnt] at h2
            rcases h2 with h2 | h2
            · exact Or.inl (hseen.mpr h2)
            · exact Or.inr h2
      · simp only [dup_marked, if_neg hx]
        rw [ih (x :: seen)]
        constructor
        · rintro ⟨h1, h2⟩
          refine ⟨List.mem_cons.mpr (Or.inr h1), ?_⟩
          rw [hcnt]
          rcases h2 with h2 | h2
          · exact Or.inl (hseen.mp h2)
          · exact Or.inr h2
        · rintro ⟨h1, h2⟩
          rcases List.mem_cons.mp h1 with h1 | h1
          · exact absurd h1 hlx
          · refine ⟨h1, ?_⟩
            rw [hcnt] at h2
            rcases h2 with h2 | h2
            · exact Or.inl (hseen.mpr h2)
            · exact Or.inr h2

theorem label_count_eq_count (l : String) :
    ∀ (hdr : HeaderKV), label_count hdr l = (hdr.map Prod.fst).count l := by
  intro hdr
  induction hdr with
  | nil => rfl
  | cons kv rest ih =>
    by_cases h : kv.1 = l
    · simp only [label_count, List.filter_cons, List.map_cons] at ih ⊢
      rw [if_pos (by simp [h]), List.length_cons, ih, h, List.count_cons_self]
    · simp only [label_count, List.filter_cons, List.map_cons] at ih ⊢
      rw [if_neg (by simp [h]), ih, List.count_cons_of_ne (fun hh => h hh.symm)]

/-! ## Claim theorems: C8 and C9 -/

/-- C8: the result of `organize_files_by_hdr` does not depend on either of its
parameters: for any two values of the `files` argument and any two values of
`extnum`, the function returns the same dataframe, because it iterates over the
global `data_files` and always reads header extension 0. -/
theorem organize_files_by_hdr_noninterference
    (files1 files2 : List String) (e1 e2 : Nat)
    (data_files : List String) (getheader : String → Nat → HeaderKV) :
    organize_files_by_hdr files1 e1 data_files getheader
      = organize_files_by_hdr files2 e2 data_files getheader := rfl

/-- C9: the explicit removal of the blank and COMMENT labels has no effect
(the undiscarded result of `hdr.drop(labels=...)` never reaches the output, so
`process_header` equals the inplace duplicated-label drop alone), and a card of
the returned row survives exactly when its label is not duplicated; in
particular a unique blank or COMMENT card survives into the returned
dataframe row. -/
theorem process_header_label_drop_no_effect (hdr : HeaderKV) :
    process_header hdr = drop_index hdr (dup_marked [] (hdr.map Prod.fst)) ∧
    (∀ lv : String × String, lv ∈ hdr →
      (lv ∈ process_header hdr ↔ label_count hdr lv.1 = 1)) ∧
    (∀ lv : String × String, lv ∈ hdr → (lv.1 = "" ∨ lv.1 = "COMMENT") →
      label_count hdr lv.1 = 1 → lv ∈ process_header hdr) := by
  have hmain : ∀ lv : String × String, lv ∈ hdr →
      (lv ∈ process_header hdr ↔ label_count hdr lv.1 = 1) := by
    intro lv hmem
    have hcount1 : 0 < (hdr.map Prod.fst).count lv.1 :=
      List.count_pos_iff.mpr (List.mem_map_of_mem Prod.fst hmem)
    show lv ∈ drop_index hdr (dup_marked [] (hdr.map Prod.fst)) ↔ _
    unfold drop_index
    rw [List.mem_filter]
    rw [label_count_eq_count]
    simp only [decide_eq_true_eq]
    constructor
    · rintro ⟨-, hp⟩
      rw [mem_dup_marked] at hp
      simp only [List.mem_nil_iff, false_or] at hp
      have : ¬ 2 ≤ (hdr.map Prod.fst).count lv.1 := by
        intro h2
        exact hp ⟨List.mem_map_of_mem Prod.fst hmem, h2⟩
      omega
    · intro h1
      refine ⟨hmem, ?_⟩
      rw [mem_dup_marked]
      simp only [List.mem_nil_iff, false_or]
      rintro ⟨-, h2⟩
      omega
  exact ⟨rfl, hmain, fun lv hmem _ hcnt => (hmain lv hmem).mpr hcnt⟩

/-- Witness for C9 at a concrete header: the unique blank card of
`[("", "v"), ("A", "1")]` survives processing. -/
theorem process_header_label_drop_no_effect_witness :
    ("", "v") ∈ process_header [("", "v"), ("A", "1")] :=
  ((process_header_label_drop_no_effect [("", "v"), ("A", "1")]).2.2
    ("", "v") (by simp) (Or.inl rfl) (by decide))

/-! ## Claim theorem: C10 -/

theorem flatten_loop_total :
    ∀ (fuel : Nat) (a : NDArr), a.ndim ≤ fuel + 2 →
      ∃ r, flatten_loop fuel a = some r ∧ r.ndim ≤ 2 := by
  intro fuel
  induction fuel with
  | zero =>
    intro a h
    exact ⟨a, by simp [flatten_loop, show a.ndim ≤ 2 by omega], by omega⟩
  | succ fuel ih =>
    intro a h
    by_cases h2 : a.ndim ≤ 2
    · exact ⟨a, by simp [flatten_loop, h2], h2⟩
    · cases hsh : a.shape with
      | nil => exact absurd (by simp [NDArr.ndim, hsh]) h2
      | cons s0 rest =>
        have hstep : nanmean_axis0 a = some ⟨rest, (List.range (shapeSize rest)).map
            (fun i => nanmean ((List.range s0).map
              (fun k => a.data.getD (k * shapeSize rest + i) none)))⟩ := by
          simp [nanmean_axis0, reduceAxis0, hsh]
        have hdim : a.ndim = rest.length + 1 := by simp [NDArr.ndim, hsh]
        obtain ⟨r, hr, hr2⟩ := ih ⟨rest, (List.range (shapeSize rest)).map
            (fun i => nanmean ((List.range s0).map
              (fun k => a.data.getD (k * shapeSize rest + i) none)))⟩
          (by simp only [NDArr.ndim]; omega)
        refine ⟨r, ?_, hr2⟩
        rw [flatten_loop]
        rw [if_neg h2, hstep]
        exact hr

/-- C10: one pass of `np.nanmean(img, axis=0)` removes exactly one axis, so the
flattening loop `while np.ndim(img) > 2: img = np.nanmean(img, axis=0)` needs
at most `ndim` iterations of fuel, terminates, and leaves an image of at most
two dimensions. -/
theorem flatten_loop_terminates :
    (∀ a : NDArr, 0 < a.ndim → ∃ b, nanmean_axis0 a = some b ∧ b.ndim = a.ndim - 1) ∧
    (∀ a : NDArr, ∃ r, flatten_loop a.ndim a = some r ∧ r.ndim ≤ 2) := by
  constructor
  · intro a h
    cases hsh : a.shape with
    | nil =>
      have hz : a.ndim = 0 := by simp [NDArr.ndim, hsh]
      exact absurd hz (by omega)
    | cons s0 rest =>
      refine ⟨⟨rest, (List.range (shapeSize rest)).map
        (fun i => nanmean ((List.range s0).map
          (fun k => a.data.getD (k * shapeSize rest + i) none)))⟩, ?_, ?_⟩
      · simp [nanmean_axis0, reduceAxis0, hsh]
      · simp [NDArr.ndim, hsh]
  · intro a
    exact flatten_loop_total a.ndim a (by omega)

/-- Witness for C10 at a concrete 3-D array of shape `[2, 1, 2]`. -/
theorem flatten_loop_terminates_witness :
    (∃ b, nanmean_axis0 ⟨[2, 1, 2], [some 1, none, some 2, some 4]⟩ = some b ∧
      b.ndim = NDArr.ndim ⟨[2, 1, 2], [some 1, none, some 2, some 4]⟩ - 1) ∧
    (∃ r, flatten_loop (NDArr.ndim ⟨[2, 1, 2], [some 1, none, some 2, some 4]⟩)
        ⟨[2, 1, 2], [some 1, none, some 2, some 4]⟩ = some r ∧ r.ndim ≤ 2) :=
  ⟨flatten_loop_terminates.1 ⟨[2, 1, 2], [some 1, none, some 2, some 4]⟩ (by decide),
   flatten_loop_terminates.2 ⟨[2, 1, 2], [some 1, none, some 2, some 4]⟩⟩

/-! ## Claim theorem: C2 -/

/-- C2: for a nonempty background group of equal-shape images, the composite is
the stack of the group's images reduced along the stack axis, pixel by pixel,
with the NaN-ignoring median when the group has more than two files and with
the NaN-ignoring minimum when it has two or fewer. -/
theorem combine_bgnd_group_pointwise (g : List NDArr) (s : List Nat)
    (hne : g ≠ [])
    (hsh : ∀ a ∈ g, a.shape = s)
    (hlen : ∀ a ∈ g, a.data.length = shapeSize s) :
    ∃ c, combine_bgnd_group g = some c ∧ c.shape = s ∧
      ∀ i, i < shapeSize s →
        c.data.getD i none
          = (if 2 < g.length then nanmedian else nanmin)
              (g.map (fun a => a.data.getD i none)) := by
  obtain ⟨a, rest, rfl⟩ : ∃ a rest, g = a :: rest := by
    cases g with
    | nil => exact absurd rfl hne
    | cons a rest => exact ⟨a, rest, rfl⟩
  have hsa : a.shape = s := hsh a (List.mem_cons_self a rest)
  subst hsa
  have hcond : rest.all (fun b => b.shape = a.shape) = true := by
    rw [List.all_eq_true]
    intro b hb
    simp only [decide_eq_true_eq]
    exact hsh b (List.mem_cons_of_mem a hb)
  have hstack : np_stack (a :: rest)
      = some ⟨(a :: rest).length :: a.shape, ((a :: rest).map NDArr.data).flatten⟩ := by
    simp only [np_stack, hcond, if_true]
  refine ⟨⟨a.shape, (List.range (shapeSize a.shape)).map
      (fun i => (if 2 < (a :: rest).length then nanmedian else nanmin)
        ((List.range (a :: rest).length).map
          (fun k => (((a :: rest).map NDArr.data).flatten).getD
            (k * shapeSize a.shape + i) none)))⟩, ?_, rfl, ?_⟩
  · show (np_stack (a :: rest)).bind _ = _
    rw [hstack]
    rfl
  · intro i hi
    show ((List.range (shapeSize a.shape)).map _).getD i none = _
    rw [getD_map_lt _ none 0 (List.range (shapeSize a.shape)) i
      (by rw [List.length_range]; exact hi)]
    rw [getD_range 0 (shapeSize a.shape) i hi]
    have hinner : (List.range (a :: rest).length).map
        (fun k => (((a :: rest).map NDArr.data).flatten).getD (k * shapeSize a.shape + i) none)
        = (a :: rest).map (fun x => x.data.getD i none) := by
      have hulen : ∀ x ∈ (a :: rest).map NDArr.data, x.length = shapeSize a.shape := by
        intro x hx
        obtain ⟨y, hy, rfl⟩ := List.mem_map.mp hx
        exact hlen y hy
      have hstep1 : (List.range (a :: rest).length).map
          (fun k => (((a :: rest).map NDArr.data).flatten).getD (k * shapeSize a.shape + i) none)
          = (List.range (a :: rest).length).map
            (fun k => (((a :: rest).getD k ⟨[], []⟩).data).getD i none) := by
        apply List.map_congr_left
        intro k hk
        have hklt : k < (a :: rest).length := List.mem_range.mp hk
        rw [getD_flatten_uniform none (shapeSize a.shape) ((a :: rest).map NDArr.data) k i
          hulen (by rw [List.length_map]; exact hklt) hi]
        rw [getD_map_lt NDArr.data [] ⟨[], []⟩ (a :: rest) k hklt]
      rw [hstep1]
      exact map_range_getD (fun x : NDArr => x.data.getD i none) ⟨[], []⟩ (a :: rest)
    rw [hinner]

/-- Witness for C2 at a concrete two-frame group (combined by `nanmin`). -/
theorem combine_bgnd_group_pointwise_witness :
    ∃ c, combine_bgnd_group
        [⟨[1, 2], [some 1, some 5]⟩, ⟨[1, 2], [some 3, some 2]⟩] = some c ∧
      c.shape = [1, 2] ∧
      ∀ i, i < shapeSize [1, 2] →
        c.data.getD i none
          = (if 2 < ([⟨[1, 2], [some 1, some 5]⟩, ⟨[1, 2], [some 3, some 2]⟩] : List NDArr).length
              then nanmedian else nanmin)
            (([⟨[1, 2], [some 1, some 5]⟩, ⟨[1, 2], [some 3, some 2]⟩] : List NDArr).map
              (fun a => a.data.getD i none)) :=
  combine_bgnd_group_pointwise
    [⟨[1, 2], [some 1, some 5]⟩, ⟨[1, 2], [some 3, some 2]⟩] [1, 2]
    (by decide) (by decide) (by decide)

/-! ## Claim theorem: C3 -/

theorem alookup_bgnd_sub (mapper : List (String × (NDArr × NDArr))) (f : String) :
    alookup (bgnd_sub_imgs mapper) f
      = (alookup mapper f).map (fun p => broadcast_sub p.1 p.2) := by
  induction mapper with
  | nil => rfl
  | cons e rest ih =>
    by_cases h : f = e.1
    · simp [bgnd_sub_imgs, alookup, h]
    · simp only [bgnd_sub_imgs, List.map_cons, alookup]
      rw [if_neg h, if_neg h]
      exact ih

/-- C3: when the trailing two axes of the target cube match the 2-D composite
background, the subtraction cell broadcasts the background over every
integration slice: entry `(k, i, j)` of the result is the target entry minus
background entry `(i, j)`; and each matched file of the mapper gets exactly
this subtracted image in `bgnd_sub_imgs`. -/
theorem broadcast_sub_slices (t b : NDArr) (n h w : Nat)
    (ht : t.shape = [n, h, w]) (hb : b.shape = [h, w]) :
    ∃ r, broadcast_sub t b = some r ∧ r.shape = [n, h, w] ∧
      (∀ k i j, k < n → i < h → j < w →
        r.data.getD (k * (h * w) + (i * w + j)) none
          = pixSub (t.data.getD (k * (h * w) + (i * w + j)) none)
              (b.data.getD (i * w + j) none)) ∧
      (∀ (mapper : List (String × (NDArr × NDArr))) (f : String),
        alookup mapper f = some (t, b) →
        alookup (bgnd_sub_imgs mapper) f = some (broadcast_sub t b)) := by
  have hbne : b.shape ≠ [] := by rw [hb]; simp
  have hsuf : b.shape <:+ t.shape := by
    rw [hb, ht]
    exact ⟨[n], rfl⟩
  have hsub : broadcast_sub t b
      = some ⟨t.shape, (List.range (shapeSize t.shape)).map
          (fun idx => pixSub (t.data.getD idx none)
            (b.data.getD (idx % shapeSize b.shape) none))⟩ := by
    unfold broadcast_sub
    rw [if_pos ⟨hbne, hsuf⟩]
  have hszt : shapeSize t.shape = n * (h * w) := by
    rw [ht]
    simp [shapeSize]
  have hszb : shapeSize b.shape = h * w := by
    rw [hb]
    simp [shapeSize]
  refine ⟨⟨t.shape, (List.range (shapeSize t.shape)).map
      (fun idx => pixSub (t.data.getD idx none)
        (b.data.getD (idx % shapeSize b.shape) none))⟩, hsub, ht, ?_, ?_⟩
  · intro k i j hk hi hj
    have hij : i * w + j < h * w := by
      have h1 : i * w + j < (i + 1) * w := by
        have : (i + 1) * w = i * w + w := by ring
        omega
      have h2 : (i + 1) * w ≤ h * w := mul_le_mul_right' (by omega) w
      omega
    have hidx : k * (h * w) + (i * w + j) < n * (h * w) := by
      have h1 : k * (h * w) + (i * w + j) < (k + 1) * (h * w) := by
        have : (k + 1) * (h * w) = k * (h * w) + h * w := by ring
        omega
      have h2 : (k + 1) * (h * w) ≤ n * (h * w) := mul_le_mul_right' (by omega) (h * w)
      omega
    show ((List.range (shapeSize t.shape)).map _).getD (k * (h * w) + (i * w + j)) none = _
    rw [getD_map_lt _ none 0 (List.range (shapeSize t.shape)) (k * (h * w) + (i * w + j))
      (by rw [List.length_range, hszt]; exact hidx)]
    rw [getD_range 0 (shapeSize t.shape) (k * (h * w) + (i * w + j)) (by rw [hszt]; exact hidx)]
    rw [hszb]
    have hmod : (k * (h * w) + (i * w + j)) % (h * w) = i * w + j := by
      rw [Nat.mul_comm k (h * w), Nat.mul_add_mod (h * w) k (i * w + j)]
      exact Nat.mod_eq_of_lt hij
    rw [hmod]
  · intro mapper f hfm
    rw [alookup_bgnd_sub, hfm]
    rfl

/-- Witness for C3 at a concrete 3-D cube of shape `[2, 1, 2]` and 2-D
background of shape `[1, 2]`. -/
theorem broadcast_sub_slices_witness :
    ∃ r, broadcast_sub ⟨[2, 1, 2], [some 1, some 2, none, some 4]⟩
        ⟨[1, 2], [some 1, some 1]⟩ = some r ∧
      r.shape = [2, 1, 2] ∧
      (∀ k i j, k < 2 → i < 1 → j < 2 →
        r.data.getD (k * (1 * 2) + (i * 2 + j)) none
          = pixSub ((⟨[2, 1, 2], [some 1, some 2, none, some 4]⟩ : NDArr).data.getD
              (k * (1 * 2) + (i * 2 + j)) none)
              ((⟨[1, 2], [some 1, some 1]⟩ : NDArr).data.getD (i * 2 + j) none)) ∧
      (∀ (mapper : List (String × (NDArr × NDArr))) (f : String),
        alookup mapper f
          = some (⟨[2, 1, 2], [some 1, some 2, none, some 4]⟩, ⟨[1, 2], [some 1, some 1]⟩) →
        alookup (bgnd_sub_imgs mapper) f
          = some (broadcast_sub ⟨[2, 1, 2], [some 1, some 2, none, some 4]⟩
              ⟨[1, 2], [some 1, some 1]⟩)) :=
  broadcast_sub_slices ⟨[2, 1, 2], [some 1, some 2, none, some 4]⟩
    ⟨[1, 2], [some 1, some 1]⟩ 2 1 2 rfl rfl

/-! ## Claim theorem: C4 -/

theorem build_mapper_absent_key (getdata1 : String → NDArr) (bg_imgs : List (String × NDArr)) :
    ∀ (ofns : List (String × String)) (m : List (String × (NDArr × NDArr))) (f : String),
      build_bgnd_img_mapper ofns getdata1 bg_imgs = some m →
      f ∉ ofns.map Prod.fst → alookup m f = none := by
  intro ofns
  induction ofns with
  | nil =>
    intro m f hm _
    simp only [build_bgnd_img_mapper] at hm
    cases hm
    rfl
  | cons fn rest ih =>
    intro m f hm hf
    have hf1 : f ≠ fn.1 := fun h => hf (by rw [List.map_cons]; exact h ▸ List.mem_cons_self _ _)
    have hf2 : f ∉ rest.map Prod.fst := fun h => hf (by rw [List.map_cons]; exact List.mem_cons_of_mem _ h)
    simp only [build_bgnd_img_mapper] at hm
    by_cases ht : fn.2 ∈ targ_obsnums
    · rw [if_pos ht] at hm
      cases hd : py_dict_get bgnd_obsnum_mapper fn.2 with
      | none => rw [hd] at hm; cases hm
      | some bnum =>
        rw [hd] at hm
        dsimp only at hm
        cases hb : alookup bg_imgs bnum with
        | none => rw [hb] at hm; cases hm
        | some bimg =>
          rw [hb] at hm
          dsimp only at hm
          cases hrest : build_bgnd_img_mapper rest getdata1 bg_imgs with
          | none => rw [hrest] at hm; cases hm
          | some m2 =>
            rw [hrest] at hm
            simp only [Option.map_some'] at hm
            cases hm
            show alookup ((fn.1, (getdata1 fn.1, bimg)) :: m2) f = none
            simp only [alookup]
            rw [if_neg hf1]
            exact ih m2 f hrest hf2
    · rw [if_neg ht] at hm
      exact ih m f hm hf2

theorem mk_obsnum_filenames_fst (l : List String) :
    (mk_obsnum_filenames l).map Prod.fst = l := by
  induction l with
  | nil => rfl
  | cons x rest ih =>
    simp only [mk_obsnum_filenames, List.map_cons] at ih ⊢
    rw [ih]

/-- C4: the observation number of a data file is characters 7 through 9 of its
name; a file whose observation number is in the target list is paired in
`bgnd_img_mapper` with exactly the composite background that the
(target, background) mapper table assigns to that observation number, and a
file whose observation number is not in the target list gets no pairing. -/
theorem obsnum_pairing
    (data_file_names : List String)
    (hnd : data_file_names.Nodup)
    (getdata1 : String → NDArr) (bg_imgs : List (String × NDArr))
    (m : List (String × (NDArr × NDArr)))
    (hm : build_bgnd_img_mapper (mk_obsnum_filenames data_file_names) getdata1 bg_imgs
      = some m)
    (f : String) (hf : f ∈ data_file_names) :
    (obsnum_of f).data = (f.data.drop 7).take 3 ∧
    (obsnum_of f ∈ targ_obsnums →
      ∃ bnum bimg, py_dict_get bgnd_obsnum_mapper (obsnum_of f) = some bnum ∧
        alookup bg_imgs bnum = some bimg ∧
        alookup m f = some (getdata1 f, bimg)) ∧
    (obsnum_of f ∉ targ_obsnums → alookup m f = none) := by
  refine ⟨rfl, ?_⟩
  induction data_file_names generalizing m with
  | nil => exact absurd hf (List.not_mem_nil f)
  | cons x rest ih =>
    have hmk : mk_obsnum_filenames (x :: rest)
        = (x, obsnum_of x) :: mk_obsnum_filenames rest := rfl
    rw [hmk] at hm
    simp only [build_bgnd_img_mapper] at hm
    by_cases ht : obsnum_of x ∈ targ_obsnums
    · rw [if_pos ht] at hm
      cases hd : py_dict_get bgnd_obsnum_mapper (obsnum_of x) with
      | none => rw [hd] at hm; cases hm
      | some bnum =>
        rw [hd] at hm
        dsimp only at hm
        cases hb : alookup bg_imgs bnum with
        | none => rw [hb] at hm; cases hm
        | some bimg =>
          rw [hb] at hm
          dsimp only at hm
          cases hrest : build_bgnd_img_mapper (mk_obsnum_filenames rest) getdata1 bg_imgs with
          | none => rw [hrest] at hm; cases hm
          | some m2 =>
            rw [hrest] at hm
            simp only [Option.map_some'] at hm
            cases hm
            rcases List.mem_cons.mp hf with hfx | hfr
            · subst hfx
              constructor
              · intro _
                refine ⟨bnum, bimg, hd, hb, ?_⟩
                simp [alookup]
              · intro hcontra
                exact absurd ht hcontra
            · have hfx : f ≠ x := fun h => (List.nodup_cons.mp hnd).1 (h ▸ hfr)
              have halo : ∀ v, alookup ((x, (getdata1 x, bimg)) :: m2) f = v ↔ alookup m2 f = v := by
                intro v
                simp only [alookup]
                rw [if_neg hfx]
              obtain ⟨h1, h2⟩ := ih (List.nodup_cons.mp hnd).2 m2 hrest hfr
              constructor
              · intro htv
                obtain ⟨bn, bi, ha, hbb, hc⟩ := h1 htv
                exact ⟨bn, bi, ha, hbb, (halo _).mpr hc⟩
              · intro htv
                exact (halo none).mpr (h2 htv)
    · rw [if_neg ht] at hm
      rcases List.mem_cons.mp hf with hfx | hfr
      · subst hfx
        constructor
        · intro hcontra
          exact absurd hcontra ht
        · intro _
          exact build_mapper_absent_key getdata1 bg_imgs (mk_obsnum_filenames rest) m f hm
            (by rw [mk_obsnum_filenames_fst]; exact (List.nodup_cons.mp hnd).1)
      · exact ih (List.nodup_cons.mp hnd).2 m hm hfr

/-- Witness for C4 at a concrete one-file list whose observation number 019 is
in the target list and maps to background 032. -/
theorem obsnum_pairing_witness :
    (obsnum_of "jw01386019001_file.fits").data
      = ("jw01386019001_file.fits".data.drop 7).take 3 ∧
    (obsnum_of "jw01386019001_file.fits" ∈ targ_obsnums →
      ∃ bnum bimg,
        py_dict_get bgnd_obsnum_mapper (obsnum_of "jw01386019001_file.fits") = some bnum ∧
        alookup [("032", (⟨[1], [some 2]⟩ : NDArr))] bnum = some bimg ∧
        alookup [("jw01386019001_file.fits",
          ((⟨[1], [some 7]⟩ : NDArr), (⟨[1], [some 2]⟩ : NDArr)))] "jw01386019001_file.fits"
          = some ((fun _ => (⟨[1], [some 7]⟩ : NDArr)) "jw01386019001_file.fits", bimg)) ∧
    (obsnum_of "jw01386019001_file.fits" ∉ targ_obsnums →
      alookup [("jw01386019001_file.fits",
        ((⟨[1], [some 7]⟩ : NDArr), (⟨[1], [some 2]⟩ : NDArr)))] "jw01386019001_file.fits"
        = none) :=
  obsnum_pairing ["jw01386019001_file.fits"] (by decide)
    (fun _ => ⟨[1], [some 7]⟩) [("032", ⟨[1], [some 2]⟩)]
    [("jw01386019001_file.fits", (⟨[1], [some 7]⟩, ⟨[1], [some 2]⟩))]
    (by decide) "jw01386019001_file.fits" (by decide)

/-! ## Claim theorem: C5 -/

theorem string_ext_of_data {a b : String} (h : a.data = b.data) : a = b := by
  cases a
  cases b
  exact congrArg String.mk h

theorem py_stem_ext_append (name : String) :
    (py_stem_ext name).1 ++ (py_stem_ext name).2 = name := by
  unfold py_stem_ext
  split
  · split
    · apply string_ext_of_data
      show name.data.take _ ++ name.data.drop _ = name.data
      exact List.take_append_drop _ name.data
    · simp
  · simp

theorem getLastD_concat_str (path : FPath) (x d : String) :
    (path ++ [x]).getLastD d = x := by
  induction path with
  | nil => rfl
  | cons y rest ih =>
    cases rest with
    | nil => rfl
    | cons z rest2 => exact ih

/-- C5: `write_bgsub` writes, to the target's stem with `_bgsub` inserted
before the original suffix, a file whose HDU 1 holds exactly the supplied
image (header kept), with every other HDU copied unchanged, and leaves the
original target file untouched in the store. -/
theorem write_bgsub_frame (store : FitsStore) (targ_file : FPath) (img : NDArr)
    (path : FPath) (hdus : FitsFile)
    (hlook : alookup store targ_file = some hdus)
    (hlen : 2 ≤ hdus.length) :
    ∃ store2, write_bgsub store targ_file img path = .ok store2 ∧
      write_bgsub_name (targ_file.getLastD "")
        = (py_stem_ext (targ_file.getLastD "")).1 ++ "_bgsub"
          ++ (py_stem_ext (targ_file.getLastD "")).2 ∧
      (py_stem_ext (targ_file.getLastD "")).1 ++ (py_stem_ext (targ_file.getLastD "")).2
        = targ_file.getLastD "" ∧
      ∃ newfile,
        alookup store2 (path ++ [write_bgsub_name (targ_file.getLastD "")]) = some newfile ∧
        newfile.length = hdus.length ∧
        (newfile.getD 1 ⟨[], none⟩).data = some img ∧
        (newfile.getD 1 ⟨[], none⟩).header = (hdus.getD 1 ⟨[], none⟩).header ∧
        (∀ i, i < hdus.length → i ≠ 1 → newfile.getD i ⟨[], none⟩ = hdus.getD i ⟨[], none⟩) ∧
        alookup store2 targ_file = some hdus := by
  have h1lt : 1 < hdus.length := by omega
  have hne : targ_file ≠ path ++ [write_bgsub_name (targ_file.getLastD "")] := by
    intro heq
    have hlast : targ_file.getLastD "" = write_bgsub_name (targ_file.getLastD "") := by
      conv_lhs => rw [heq]
      exact getLastD_concat_str path _ ""
    have hsplit : (py_stem_ext (targ_file.getLastD "")).1.length
        + (py_stem_ext (targ_file.getLastD "")).2.length
        = (targ_file.getLastD "").length := by
      have hca := congrArg String.length (py_stem_ext_append (targ_file.getLastD ""))
      rw [String.length_append] at hca
      exact hca
    have hgrow : (write_bgsub_name (targ_file.getLastD "")).length
        = (py_stem_ext (targ_file.getLastD "")).1.length + 6
          + (py_stem_ext (targ_file.getLastD "")).2.length := by
      unfold write_bgsub_name
      rw [String.length_append, String.length_append]
      rfl
    have hle := congrArg String.length hlast
    rw [hgrow] at hle
    omega
  refine ⟨aset store (path ++ [write_bgsub_name (targ_file.getLastD "")])
      (hdus.set 1 ⟨(hdus.getD 1 ⟨[], none⟩).header, some img⟩), ?_, rfl,
      py_stem_ext_append _, ?_⟩
  · unfold write_bgsub
    rw [hlook]
    dsimp only
    rw [if_pos hlen]
  · refine ⟨hdus.set 1 ⟨(hdus.getD 1 ⟨[], none⟩).header, some img⟩,
      alookup_aset_same store _ _, List.length_set hdus 1 _, ?_, ?_, ?_, ?_⟩
    · rw [set_getD_same ⟨[], none⟩ hdus 1 _ h1lt]
    · rw [set_getD_same ⟨[], none⟩ hdus 1 _ h1lt]
    · intro i _ hi1
      exact set_getD_other ⟨[], none⟩ hdus 1 i _ (fun h => hi1 h.symm)
    · rw [alookup_aset_other store _ targ_file _ hne]
      exact hlook

/-- Witness for C5 at a concrete two-HDU FITS file. -/
theorem write_bgsub_frame_witness :
    ∃ store2, write_bgsub
        [(["d", "a.fits"], [⟨[("K", "0")], none⟩, ⟨[("X", "1")], some ⟨[1], [some 9]⟩⟩])]
        ["d", "a.fits"] ⟨[1], [some 5]⟩ ["out"] = .ok store2 ∧
      write_bgsub_name ((["d", "a.fits"] : FPath).getLastD "")
        = (py_stem_ext ((["d", "a.fits"] : FPath).getLastD "")).1 ++ "_bgsub"
          ++ (py_stem_ext ((["d", "a.fits"] : FPath).getLastD "")).2 ∧
      (py_stem_ext ((["d", "a.fits"] : FPath).getLastD "")).1
        ++ (py_stem_ext ((["d", "a.fits"] : FPath).getLastD "")).2
        = (["d", "a.fits"] : FPath).getLastD "" ∧
      ∃ newfile,
        alookup store2
          (["out"] ++ [write_bgsub_name ((["d", "a.fits"] : FPath).getLastD "")])
          = some newfile ∧
        newfile.length
          = ([⟨[("K", "0")], none⟩, ⟨[("X", "1")], some ⟨[1], [some 9]⟩⟩] : FitsFile).length ∧
        (newfile.getD 1 ⟨[], none⟩).data = some ⟨[1], [some 5]⟩ ∧
        (newfile.getD 1 ⟨[], none⟩).header
          = (([⟨[("K", "0")], none⟩, ⟨[("X", "1")], some ⟨[1], [some 9]⟩⟩] : FitsFile).getD 1
              ⟨[], none⟩).header ∧
        (∀ i, i < ([⟨[("K", "0")], none⟩, ⟨[("X", "1")], some ⟨[1], [some 9]⟩⟩] : FitsFile).length
          → i ≠ 1 → newfile.getD i ⟨[], none⟩
            = ([⟨[("K", "0")], none⟩, ⟨[("X", "1")], some ⟨[1], [some 9]⟩⟩] : FitsFile).getD i
                ⟨[], none⟩) ∧
        alookup store2 ["d", "a.fits"]
          = some [⟨[("K", "0")], none⟩, ⟨[("X", "1")], some ⟨[1], [some 9]⟩⟩] :=
  write_bgsub_frame
    [(["d", "a.fits"], [⟨[("K", "0")], none⟩, ⟨[("X", "1")], some ⟨[1], [some 9]⟩⟩])]
    ["d", "a.fits"] ⟨[1], [some 5]⟩ ["out"]
    [⟨[("K", "0")], none⟩, ⟨[("X", "1")], some ⟨[1], [some 9]⟩⟩]
    (by decide) (by decide)

/-! ## Claim theorems: C1 and C7 -/

/-- C1 (code evaluation): at a product that is not yet on disk and whose HTTP
request succeeds (status 200), the download iteration raises
`NameError: name 'block_size' is not defined`, because the cell assigns the
chunk-size constant to the misspelled name `block_dataze` while the write loop
reads `block_size`. The claimed chunked write and COMPLETE report are never
reached. -/
theorem download_iteration_raises_nameerror :
    download_iteration download_env [] ["data-bkp"]
      "jw01386-c1001_t001_miri_f1140c-mask1140_i2d.fits" 200 [0, 1, 2]
      = .error (.nameError "block_size") := rfl

/-- C7: for a product whose output file already exists, one iteration of the
download loop returns without raising and leaves the whole file system — in
particular that file, byte for byte — unchanged; a failed HTTP status is
likewise caught and also skips the iteration. -/
theorem download_iteration_skips_existing (env : List (String × Nat)) (fs : ByteFS)
    (out_dir : FPath) (p : String) (status : Nat) (content : List Nat)
    (hex : (alookup fs (out_dir ++ [p])).isSome = true) :
    download_iteration env fs out_dir p status content = .ok fs := by
  unfold download_iteration
  by_cases hs : raise_for_status_raises status = true
  · rw [if_pos hs]
  · rw [if_neg hs, if_pos hex]

/-- Witness for C7 at a concrete file system that already holds the product. -/
theorem download_iteration_skips_existing_witness :
    download_iteration download_env [(["data-bkp", "f.fits"], [7, 7])] ["data-bkp"]
      "f.fits" 200 [1, 2, 3]
      = .ok [(["data-bkp", "f.fits"], [7, 7])] :=
  download_iteration_skips_existing download_env [(["data-bkp", "f.fits"], [7, 7])]
    ["data-bkp"] "f.fits" 200 [1, 2, 3] (by decide)

/-! ## C6: the dummy association manifest

Step lemmas letting the fueled JSON reader consume the manifest text chunk by
chunk, the master parse of the full produced content, and the claim itself. -/

theorem skipWs_ws_append (w : List Char) (s : List Char) (hw : w.all isWsChar = true) :
    skipWs (w ++ s) = skipWs s := by
  induction w with
  | nil => rfl
  | cons c cs ih =>
    have hc : isWsChar c = true := by
      have := List.all_eq_true.mp hw c (List.mem_cons_self c cs)
      simpa using this
    have hcs : cs.all isWsChar = true := by
      rw [List.all_eq_true] at hw ⊢
      intro x hx
      exact hw x (List.mem_cons_of_mem c hx)
    simp only [List.cons_append, skipWs, hc, if_true]
    exact ih hcs

theorem skipWs_not_ws (c : Char) (s : List Char) (hc : isWsChar c = false) :
    skipWs (c :: s) = c :: s := by
  simp [skipWs, hc]

theorem parseStrBody_good (s rest : List Char) (hs : s.all jsonPlainChar = true) :
    parseStrBody (s ++ '\x22' :: rest) = some (s, rest) := by
  induction s with
  | nil => rfl
  | cons c cs ih =>
    have hc : jsonPlainChar c = true := by
      have := List.all_eq_true.mp hs c (List.mem_cons_self c cs)
      simpa using this
    have hcs : cs.all jsonPlainChar = true := by
      rw [List.all_eq_true] at hs ⊢
      intro x hx
      exact hs x (List.mem_cons_of_mem c hx)
    simp only [jsonPlainChar, decide_eq_true_eq] at hc
    have hq : ¬ c = '\x22' := hc.1
    have hbs : ¬ (c = '\x5c' ∨ c.toNat < 32) := by
      rcases hc with ⟨h1, h2, h3⟩
      rintro (h | h)
      · exact h2 h
      · omega
    simp only [List.cons_append, parseStrBody, if_neg hq, if_neg hbs, List.append_eq, ih hcs]

theorem parseVal_str (fuel : Nat) (w s rest : List Char)
    (hw : w.all isWsChar = true) (hs : s.all jsonPlainChar = true) :
    parseVal (fuel + 1) (w ++ '\x22' :: (s ++ '\x22' :: rest)) = some (.str ⟨s⟩, rest) := by
  have h1 : skipWs (w ++ '\x22' :: (s ++ '\x22' :: rest))
      = '\x22' :: (s ++ '\x22' :: rest) := by
    rw [skipWs_ws_append w _ hw]
    exact skipWs_not_ws _ _ (by decide)
  rw [parseVal, h1]
  dsimp only
  rw [if_pos rfl, parseStrBody_good s rest hs]

theorem parseVal_str2 (fuel : Nat) (s v rest : List Char)
    (hv : v.all jsonPlainChar = true)
    (hs : skipWs s = '\x22' :: (v ++ '\x22' :: rest)) :
    parseVal (fuel + 1) s = some (.str ⟨v⟩, rest) := by
  rw [parseVal, hs]
  dsimp only
  rw [if_pos rfl, parseStrBody_good v rest hv]

theorem parseFields_field_comma (fuel : Nat) (s key tail : List Char) (jv : JVal)
    (r1 rest : List Char)
    (hk : key.all jsonPlainChar = true)
    (hs : skipWs s = '\x22' :: (key ++ '\x22' :: ':' :: tail))
    (hval : parseVal fuel tail = some (jv, r1))
    (hr : skipWs r1 = ',' :: rest) :
    parseFields (fuel + 1) s
      = match parseFields fuel rest with
        | some fr => some ((⟨key⟩, jv) :: fr.1, fr.2)
        | none => none := by
  rw [parseFields, hs]
  dsimp only
  rw [if_pos rfl, parseStrBody_good key _ hk]
  dsimp only
  rw [skipWs_not_ws ':' tail (by decide)]
  dsimp only
  rw [if_pos rfl, hval]
  dsimp only
  rw [hr]
  dsimp only
  rw [if_pos rfl]

theorem parseFields_field_brace (fuel : Nat) (s key tail : List Char) (jv : JVal)
    (r1 rest : List Char)
    (hk : key.all jsonPlainChar = true)
    (hs : skipWs s = '\x22' :: (key ++ '\x22' :: ':' :: tail))
    (hval : parseVal fuel tail = some (jv, r1))
    (hr : skipWs r1 = '\x7d' :: rest) :
    parseFields (fuel + 1) s = some ([(⟨key⟩, jv)], rest) := by
  rw [parseFields, hs]
  dsimp only
  rw [if_pos rfl, parseStrBody_good key _ hk]
  dsimp only
  rw [skipWs_not_ws ':' tail (by decide)]
  dsimp only
  rw [if_pos rfl, hval]
  dsimp only
  rw [hr]
  dsimp only
  rw [if_neg (by decide), if_pos rfl]

theorem parseElems_cons_comma (fuel : Nat) (s : List Char) (jv : JVal) (r1 rest : List Char)
    (hval : parseVal fuel s = some (jv, r1))
    (hr : skipWs r1 = ',' :: rest) :
    parseElems (fuel + 1) s
      = match parseElems fuel rest with
        | some er => some (jv :: er.1, er.2)
        | none => none := by
  rw [parseElems, hval]
  change (match skipWs r1 with
    | [] => none
    | c :: r1x =>
      if c = ',' then
        match parseElems fuel r1x with
        | some er => some (jv :: er.1, er.2)
        | none => none
      else if c = ']' then some ([jv], r1x) else none) = _
  rw [hr]
  rfl

theorem parseElems_cons_bracket (fuel : Nat) (s : List Char) (jv : JVal) (r1 rest : List Char)
    (hval : parseVal fuel s = some (jv, r1))
    (hr : skipWs r1 = ']' :: rest) :
    parseElems (fuel + 1) s = some ([jv], rest) := by
  rw [parseElems, hval]
  change (match skipWs r1 with
    | [] => none
    | c :: r1x =>
      if c = ',' then
        match parseElems fuel r1x with
        | some er => some (jv :: er.1, er.2)
        | none => none
      else if c = ']' then some ([jv], r1x) else none) = _
  rw [hr]
  rfl

theorem parseVal_arr (fuel : Nat) (s tail : List Char) (c0 : Char) (cs0 : List Char)
    (es : List JVal) (rest : List Char)
    (hs : skipWs s = '[' :: tail)
    (htail : skipWs tail = c0 :: cs0)
    (hc0 : ¬ c0 = ']')
    (helems : parseElems fuel (c0 :: cs0) = some (es, rest)) :
    parseVal (fuel + 1) s = some (.arr es, rest) := by
  rw [parseVal, hs]
  change (if headIs (skipWs tail) ']' then some (JVal.arr [], (skipWs tail).tail)
    else match parseElems fuel (skipWs tail) with
      | some er => some (JVal.arr er.1, er.2)
      | none => none) = _
  rw [htail]
  have hh : headIs (c0 :: cs0) ']' = false := by simp [headIs, hc0]
  rw [hh]
  change (match parseElems fuel (c0 :: cs0) with
    | some er => some (JVal.arr er.1, er.2)
    | none => none) = _
  rw [helems]

theorem parseVal_obj (fuel : Nat) (s tail : List Char) (c0 : Char) (cs0 : List Char)
    (fs : List (String × JVal)) (rest : List Char)
    (hs : skipWs s = '\x7b' :: tail)
    (htail : skipWs tail = c0 :: cs0)
    (hc0 : ¬ c0 = '\x7d')
    (hfields : parseFields fuel (c0 :: cs0) = some (fs, rest)) :
    parseVal (fuel + 1) s = some (.obj fs, rest) := by
  rw [parseVal, hs]
  change (if headIs (skipWs tail) '\x7d' then some (JVal.obj [], (skipWs tail).tail)
    else match parseFields fuel (skipWs tail) with
      | some fr => some (JVal.obj fr.1, fr.2)
      | none => none) = _
  rw [htail]
  have hh : headIs (c0 :: cs0) '\x7d' = false := by simp [headIs, hc0]
  rw [hh]
  change (match parseFields fuel (c0 :: cs0) with
    | some fr => some (JVal.obj fr.1, fr.2)
    | none => none) = _
  rw [hfields]

theorem str_data_append (a b : String) : (a ++ b).data = a.data ++ b.data := rfl

theorem parseVal_memberobj (k v : String) (fuel : Nat) (s w tail R2 : List Char)
    (hk : k.data.all jsonPlainChar = true) (hv : v.data.all jsonPlainChar = true)
    (hw : w.all isWsChar = true)
    (hs : skipWs s = '\x7b' :: (w ++ ((asn_line 5 k v).data ++ tail)))
    (htail : skipWs tail = '\x7d' :: R2) :
    parseVal (fuel + 4) s = some (member_json (k, v), R2) := by
  have hline : (asn_line 5 k v).data ++ tail
      = (tabs 6).data ++ ("\x22expname\x22: \x22".data ++ (k.data ++ ("\x22,\n".data
          ++ ((tabs 6).data ++ ("\x22exptype\x22: \x22".data
            ++ (v.data ++ ("\x22".data ++ tail))))))) := by
    simp [asn_line, str_data_append, List.append_assoc]
  have htail0 : skipWs (w ++ ((asn_line 5 k v).data ++ tail))
      = '\x22' :: ("expname".data ++ ('\x22' :: ':' :: ' ' :: '\x22' :: (k.data
          ++ ('\x22' :: ',' :: '\n' :: ((tabs 6).data ++ ("\x22exptype\x22: \x22".data
            ++ (v.data ++ ('\x22' :: tail)))))))) := by
    rw [hline, skipWs_ws_append w _ hw]
    rfl
  have hval1 : parseVal (fuel + 2)
      (' ' :: '\x22' :: (k.data ++ ('\x22' :: ',' :: '\n' :: ((tabs 6).data
        ++ ("\x22exptype\x22: \x22".data ++ (v.data ++ ('\x22' :: tail)))))))
      = some (.str ⟨k.data⟩, ',' :: '\n' :: ((tabs 6).data
          ++ ("\x22exptype\x22: \x22".data ++ (v.data ++ ('\x22' :: tail))))) :=
    parseVal_str2 (fuel + 1) _ k.data _ hk rfl
  have hval2 : parseVal (fuel + 1) (' ' :: '\x22' :: (v.data ++ ('\x22' :: tail)))
      = some (.str ⟨v.data⟩, tail) :=
    parseVal_str2 fuel _ v.data tail hv rfl
  have hf2 : parseFields (fuel + 2)
      ('\n' :: ((tabs 6).data ++ ("\x22exptype\x22: \x22".data ++ (v.data ++ ('\x22' :: tail)))))
      = some ([("exptype", .str v)], R2) := by
    rw [parseFields_field_brace (fuel + 1)
      ('\n' :: ((tabs 6).data ++ ("\x22exptype\x22: \x22".data ++ (v.data ++ ('\x22' :: tail)))))
      "exptype".data
      (' ' :: '\x22' :: (v.data ++ ('\x22' :: tail))) (.str ⟨v.data⟩) tail R2
      (by decide) rfl hval2 htail]
  have hfields : parseFields (fuel + 3)
      ('\x22' :: ("expname".data ++ ('\x22' :: ':' :: ' ' :: '\x22' :: (k.data
        ++ ('\x22' :: ',' :: '\n' :: ((tabs 6).data ++ ("\x22exptype\x22: \x22".data
          ++ (v.data ++ ('\x22' :: tail)))))))))
      = some ([("expname", .str k), ("exptype", .str v)], R2) := by
    rw [parseFields_field_comma (fuel + 2)
      ('\x22' :: ("expname".data ++ ('\x22' :: ':' :: ' ' :: '\x22' :: (k.data
        ++ ('\x22' :: ',' :: '\n' :: ((tabs 6).data ++ ("\x22exptype\x22: \x22".data
          ++ (v.data ++ ('\x22' :: tail)))))))))
      "expname".data
      (' ' :: '\x22' :: (k.data ++ ('\x22' :: ',' :: '\n' :: ((tabs 6).data
        ++ ("\x22exptype\x22: \x22".data ++ (v.data ++ ('\x22' :: tail)))))))
      (.str ⟨k.data⟩)
      (',' :: '\n' :: ((tabs 6).data ++ ("\x22exptype\x22: \x22".data
        ++ (v.data ++ ('\x22' :: tail)))))
      ('\n' :: ((tabs 6).data ++ ("\x22exptype\x22: \x22".data ++ (v.data ++ ('\x22' :: tail)))))
      (by decide) rfl hval1 rfl]
    rw [hf2]
  exact parseVal_obj (fuel + 3) s _ '\x22' _ [("expname", .str k), ("exptype", .str v)] R2
    hs htail0 (by decide) hfields

theorem parseElems_members (R R2 R3 : List Char)
    (hR : skipWs R = '\x7d' :: R2) (hR2 : skipWs R2 = ']' :: R3) :
    ∀ (fd : List (String × String)) (fuel : Nat) (w : List Char),
      fd ≠ [] →
      (∀ kv ∈ fd, kv.1.data.all jsonPlainChar = true ∧ kv.2.data.all jsonPlainChar = true) →
      w.all isWsChar = true →
      parseElems (fuel + (fd.length + 4)) ('\x7b' :: (w ++ ((make_entries fd 5).data ++ R)))
        = some (fd.map member_json, R3) := by
  intro fd
  induction fd with
  | nil =>
    intro fuel w hne _ _
    exact absurd rfl hne
  | cons kv fd' ih =>
    intro fuel w hne hgood hw
    have hk : kv.1.data.all jsonPlainChar = true := (hgood kv (List.mem_cons_self kv fd')).1
    have hv : kv.2.data.all jsonPlainChar = true := (hgood kv (List.mem_cons_self kv fd')).2
    by_cases h' : fd' = []
    · subst h'
      exact parseElems_cons_bracket (fuel + 4) _ (member_json kv) R2 R3
        (parseVal_memberobj kv.1 kv.2 fuel _ w R R2 hk hv hw rfl hR) hR2
    · have hsplitme : make_entries (kv :: fd') 5
          = asn_line 5 kv.1 kv.2 ++ ("\n" ++ tabs 5 ++ "\x7d,\x7b\n") ++ make_entries fd' 5 := by
        cases fd' with
        | nil => exact absurd rfl h'
        | cons p fd2 => rfl
      have hstream : (make_entries (kv :: fd') 5).data ++ R
          = (asn_line 5 kv.1 kv.2).data
            ++ (("\n" ++ tabs 5 ++ "\x7d,\x7b\n").data ++ ((make_entries fd' 5).data ++ R)) := by
        rw [hsplitme]
        simp [str_data_append, List.append_assoc]
      have hgood2 : ∀ kv2 ∈ fd', kv2.1.data.all jsonPlainChar = true
          ∧ kv2.2.data.all jsonPlainChar = true :=
        fun kv2 h2 => hgood kv2 (List.mem_cons_of_mem kv h2)
      have hmember : parseVal ((fuel + fd'.length) + 4)
          ('\x7b' :: (w ++ ((make_entries (kv :: fd') 5).data ++ R)))
          = some (member_json kv,
              ',' :: ('\x7b' :: (['\n'] ++ ((make_entries fd' 5).data ++ R)))) := by
        apply parseVal_memberobj kv.1 kv.2 (fuel + fd'.length) _ w
          (("\n" ++ tabs 5 ++ "\x7d,\x7b\n").data ++ ((make_entries fd' 5).data ++ R))
          (',' :: ('\x7b' :: (['\n'] ++ ((make_entries fd' 5).data ++ R)))) hk hv hw
        · rw [hstream]
          exact skipWs_not_ws '\x7b' _ (by decide)
        · rfl
      have harith : fuel + ((kv :: fd').length + 4) = ((fuel + fd'.length) + 4) + 1 := by
        simp only [List.length_cons]
        omega
      rw [harith]
      rw [parseElems_cons_comma ((fuel + fd'.length) + 4) _ (member_json kv)
        (',' :: ('\x7b' :: (['\n'] ++ ((make_entries fd' 5).data ++ R))))
        ('\x7b' :: (['\n'] ++ ((make_entries fd' 5).data ++ R))) hmember rfl]
      have hih := ih fuel ['\n'] h' hgood2 (by decide)
      have harith2 : fuel + (fd'.length + 4) = (fuel + fd'.length) + 4 := by omega
      rw [harith2] at hih
      rw [hih]
      rfl

set_option maxRecDepth 8192 in
theorem parseVal_asn_content (name : String) (fd : List (String × String)) (fuel : Nat)
    (hname : name.data.all jsonPlainChar = true)
    (hfd : ∀ kv ∈ fd, kv.1.data.all jsonPlainChar = true ∧ kv.2.data.all jsonPlainChar = true)
    (hne : fd ≠ []) :
    parseVal (fuel + fd.length + 18) (write_dummy_asn_content name fd).data
      = some (expected_asn name fd, []) := by
  have hd : (write_dummy_asn_content name fd).data = "\x7b\n    \x22asn_type\x22: \x22coron3\x22,\n    \x22asn_rule\x22: \x22candidate_Asn_Lv3Coron\x22,\n    \x22program\x22: \x22".data ++ (name.data ++ ("\x22,\n    \x22asn_id\x22: \x22c1001\x22,\n    \x22target\x22: \x22dummy\x22,\n    \x22asn_pool\x22: \x22".data ++ (name.data ++ ("-pool\x22,\n    \x22products\x22: [\x7b\n        \x22name\x22: \x22".data ++ (name.data ++ ("\x22,\n        \x22members\x22: [\x7b\n    ".data ++ ((make_entries fd 5).data ++ "\n    \x7d]\n    \x7d]\n    \x7d".data))))))) := by
    simp [write_dummy_asn_content, str_data_append, List.append_assoc]
  have hmem : parseElems (fuel + fd.length + 4) ('\x7b' :: (['\n', ' ', ' ', ' ', ' '] ++ ((make_entries fd 5).data ++ "\n    \x7d]\n    \x7d]\n    \x7d".data))) = some ((fd.map member_json), "\n    \x7d]\n    \x7d".data) := by
    rw [show fuel + fd.length + 4 = fuel + (fd.length + 4) from by omega]
    exact parseElems_members "\n    \x7d]\n    \x7d]\n    \x7d".data "]\n    \x7d]\n    \x7d".data "\n    \x7d]\n    \x7d".data rfl rfl
      fd fuel ['\n', ' ', ' ', ' ', ' '] hne hfd (by decide)
  have h_memval : parseVal (fuel + fd.length + 5) (" [\x7b\n    ".data ++ ((make_entries fd 5).data ++ "\n    \x7d]\n    \x7d]\n    \x7d".data)) = some (.arr (fd.map member_json), "\n    \x7d]\n    \x7d".data) := by
    rw [show fuel + fd.length + 5 = fuel + fd.length + 4 + 1 from rfl]
    exact parseVal_arr (fuel + fd.length + 4) (" [\x7b\n    ".data ++ ((make_entries fd 5).data ++ "\n    \x7d]\n    \x7d]\n    \x7d".data)) ("\x7b\n    ".data ++ ((make_entries fd 5).data ++ "\n    \x7d]\n    \x7d]\n    \x7d".data))
      '\x7b' (['\n', ' ', ' ', ' ', ' '] ++ ((make_entries fd 5).data ++ "\n    \x7d]\n    \x7d]\n    \x7d".data))
      (fd.map member_json) "\n    \x7d]\n    \x7d".data rfl rfl (by decide) hmem
  have h_mfield : parseFields (fuel + fd.length + 6) ("\n        \x22members\x22: [\x7b\n    ".data ++ ((make_entries fd 5).data ++ "\n    \x7d]\n    \x7d]\n    \x7d".data)) = some ([("members", JVal.arr (fd.map member_json))], "]\n    \x7d".data) := by
    rw [show fuel + fd.length + 6 = fuel + fd.length + 5 + 1 from rfl]
    rw [parseFields_field_brace (fuel + fd.length + 5) ("\n        \x22members\x22: [\x7b\n    ".data ++ ((make_entries fd 5).data ++ "\n    \x7d]\n    \x7d]\n    \x7d".data)) "members".data (" [\x7b\n    ".data ++ ((make_entries fd 5).data ++ "\n    \x7d]\n    \x7d]\n    \x7d".data))
      (JVal.arr (fd.map member_json)) "\n    \x7d]\n    \x7d".data "]\n    \x7d".data (by decide) rfl h_memval rfl]
  have h_nval : parseVal (fuel + fd.length + 6) (' ' :: '\x22' :: (name.data ++ ("\x22,\n        \x22members\x22: [\x7b\n    ".data ++ ((make_entries fd 5).data ++ "\n    \x7d]\n    \x7d]\n    \x7d".data)))) = some (.str ⟨name.data⟩, (",\n        \x22members\x22: [\x7b\n    ".data ++ ((make_entries fd 5).data ++ "\n    \x7d]\n    \x7d]\n    \x7d".data))) := by
    rw [show fuel + fd.length + 6 = fuel + fd.length + 5 + 1 from rfl]
    exact parseVal_str2 (fuel + fd.length + 5) (' ' :: '\x22' :: (name.data ++ ("\x22,\n        \x22members\x22: [\x7b\n    ".data ++ ((make_entries fd 5).data ++ "\n    \x7d]\n    \x7d]\n    \x7d".data)))) name.data (",\n        \x22members\x22: [\x7b\n    ".data ++ ((make_entries fd 5).data ++ "\n    \x7d]\n    \x7d]\n    \x7d".data)) hname rfl
  have h_nfield : parseFields (fuel + fd.length + 7) ('\x22' :: ("name\x22: \x22".data ++ (name.data ++ ("\x22,\n        \x22members\x22: [\x7b\n    ".data ++ ((make_entries fd 5).data ++ "\n    \x7d]\n    \x7d]\n    \x7d".data))))) = some ([("name", JVal.str ⟨name.data⟩), ("members", JVal.arr (fd.map member_json))], "]\n    \x7d".data) := by
    rw [show fuel + fd.length + 7 = fuel + fd.length + 6 + 1 from rfl]
    rw [parseFields_field_comma (fuel + fd.length + 6) ('\x22' :: ("name\x22: \x22".data ++ (name.data ++ ("\x22,\n        \x22members\x22: [\x7b\n    ".data ++ ((make_entries fd 5).data ++ "\n    \x7d]\n    \x7d]\n    \x7d".data))))) "name".data (' ' :: '\x22' :: (name.data ++ ("\x22,\n        \x22members\x22: [\x7b\n    ".data ++ ((make_entries fd 5).data ++ "\n    \x7d]\n    \x7d]\n    \x7d".data))))
      (JVal.str ⟨name.data⟩) (",\n        \x22members\x22: [\x7b\n    ".data ++ ((make_entries fd 5).data ++ "\n    \x7d]\n    \x7d]\n    \x7d".data)) ("\n        \x22members\x22: [\x7b\n    ".data ++ ((make_entries fd 5).data ++ "\n    \x7d]\n    \x7d]\n    \x7d".data)) (by decide) rfl h_nval rfl]
    rw [h_mfield]
  have h_pobj : parseVal (fuel + fd.length + 8) ('\x7b' :: ("\n        \x22name\x22: \x22".data ++ (name.data ++ ("\x22,\n        \x22members\x22: [\x7b\n    ".data ++ ((make_entries fd 5).data ++ "\n    \x7d]\n    \x7d]\n    \x7d".data))))) = some ((JVal.obj [("name", JVal.str ⟨name.data⟩), ("members", JVal.arr (fd.map member_json))]), "]\n    \x7d".data) := by
    rw [show fuel + fd.length + 8 = fuel + fd.length + 7 + 1 from rfl]
    exact parseVal_obj (fuel + fd.length + 7) ('\x7b' :: ("\n        \x22name\x22: \x22".data ++ (name.data ++ ("\x22,\n        \x22members\x22: [\x7b\n    ".data ++ ((make_entries fd 5).data ++ "\n    \x7d]\n    \x7d]\n    \x7d".data))))) ("\n        \x22name\x22: \x22".data ++ (name.data ++ ("\x22,\n        \x22members\x22: [\x7b\n    ".data ++ ((make_entries fd 5).data ++ "\n    \x7d]\n    \x7d]\n    \x7d".data))))
      '\x22' ("name\x22: \x22".data ++ (name.data ++ ("\x22,\n        \x22members\x22: [\x7b\n    ".data ++ ((make_entries fd 5).data ++ "\n    \x7d]\n    \x7d]\n    \x7d".data))))
      [("name", JVal.str ⟨name.data⟩), ("members", JVal.arr (fd.map member_json))] "]\n    \x7d".data rfl rfl (by decide) h_nfield
  have h_pelems : parseElems (fuel + fd.length + 9) ('\x7b' :: ("\n        \x22name\x22: \x22".data ++ (name.data ++ ("\x22,\n        \x22members\x22: [\x7b\n    ".data ++ ((make_entries fd 5).data ++ "\n    \x7d]\n    \x7d]\n    \x7d".data))))) = some ([(JVal.obj [("name", JVal.str ⟨name.data⟩), ("members", JVal.arr (fd.map member_json))])], "\n    \x7d".data) := by
    rw [show fuel + fd.length + 9 = fuel + fd.length + 8 + 1 from rfl]
    exact parseElems_cons_bracket (fuel + fd.length + 8) ('\x7b' :: ("\n        \x22name\x22: \x22".data ++ (name.data ++ ("\x22,\n        \x22members\x22: [\x7b\n    ".data ++ ((make_entries fd 5).data ++ "\n    \x7d]\n    \x7d]\n    \x7d".data))))) (JVal.obj [("name", JVal.str ⟨name.data⟩), ("members", JVal.arr (fd.map member_json))]) "]\n    \x7d".data "\n    \x7d".data h_pobj rfl
  have h_pval : parseVal (fuel + fd.length + 10) (" [\x7b\n        \x22name\x22: \x22".data ++ (name.data ++ ("\x22,\n        \x22members\x22: [\x7b\n    ".data ++ ((make_entries fd 5).data ++ "\n    \x7d]\n    \x7d]\n    \x7d".data)))) = some (.arr [(JVal.obj [("name", JVal.str ⟨name.data⟩), ("members", JVal.arr (fd.map member_json))])], "\n    \x7d".data) := by
    rw [show fuel + fd.length + 10 = fuel + fd.length + 9 + 1 from rfl]
    exact parseVal_arr (fuel + fd.length + 9) (" [\x7b\n        \x22name\x22: \x22".data ++ (name.data ++ ("\x22,\n        \x22members\x22: [\x7b\n    ".data ++ ((make_entries fd 5).data ++ "\n    \x7d]\n    \x7d]\n    \x7d".data)))) ("\x7b\n        \x22name\x22: \x22".data ++ (name.data ++ ("\x22,\n        \x22members\x22: [\x7b\n    ".data ++ ((make_entries fd 5).data ++ "\n    \x7d]\n    \x7d]\n    \x7d".data))))
      '\x7b' ("\n        \x22name\x22: \x22".data ++ (name.data ++ ("\x22,\n        \x22members\x22: [\x7b\n    ".data ++ ((make_entries fd 5).data ++ "\n    \x7d]\n    \x7d]\n    \x7d".data))))
      [(JVal.obj [("name", JVal.str ⟨name.data⟩), ("members", JVal.arr (fd.map member_json))])] "\n    \x7d".data rfl rfl (by decide) h_pelems
  have h_pfield : parseFields (fuel + fd.length + 11) ("\n    \x22products\x22: [\x7b\n        \x22name\x22: \x22".data ++ (name.data ++ ("\x22,\n        \x22members\x22: [\x7b\n    ".data ++ ((make_entries fd 5).data ++ "\n    \x7d]\n    \x7d]\n    \x7d".data)))) = some ([("products", JVal.arr [(JVal.obj [("name", JVal.str ⟨name.data⟩), ("members", JVal.arr (fd.map member_json))])])], []) := by
    rw [show fuel + fd.length + 11 = fuel + fd.length + 10 + 1 from rfl]
    rw [parseFields_field_brace (fuel + fd.length + 10) ("\n    \x22products\x22: [\x7b\n        \x22name\x22: \x22".data ++ (name.data ++ ("\x22,\n        \x22members\x22: [\x7b\n    ".data ++ ((make_entries fd 5).data ++ "\n    \x7d]\n    \x7d]\n    \x7d".data)))) "products".data (" [\x7b\n        \x22name\x22: \x22".data ++ (name.data ++ ("\x22,\n        \x22members\x22: [\x7b\n    ".data ++ ((make_entries fd 5).data ++ "\n    \x7d]\n    \x7d]\n    \x7d".data))))
      (JVal.arr [(JVal.obj [("name", JVal.str ⟨name.data⟩), ("members", JVal.arr (fd.map member_json))])]) "\n    \x7d".data [] (by decide) rfl h_pval rfl]
  have hplain_pool : (name.data ++ "-pool".data).all jsonPlainChar = true := by
    rw [List.all_append, hname]
    decide
  have h_plval : parseVal (fuel + fd.length + 11) (' ' :: '\x22' :: (name.data ++ ("-pool\x22,\n    \x22products\x22: [\x7b\n        \x22name\x22: \x22".data ++ (name.data ++ ("\x22,\n        \x22members\x22: [\x7b\n    ".data ++ ((make_entries fd 5).data ++ "\n    \x7d]\n    \x7d]\n    \x7d".data))))))
      = some (.str ⟨name.data ++ "-pool".data⟩, (",\n    \x22products\x22: [\x7b\n        \x22name\x22: \x22".data ++ (name.data ++ ("\x22,\n        \x22members\x22: [\x7b\n    ".data ++ ((make_entries fd 5).data ++ "\n    \x7d]\n    \x7d]\n    \x7d".data))))) := by
    rw [show fuel + fd.length + 11 = fuel + fd.length + 10 + 1 from rfl]
    apply parseVal_str2 (fuel + fd.length + 10) (' ' :: '\x22' :: (name.data ++ ("-pool\x22,\n    \x22products\x22: [\x7b\n        \x22name\x22: \x22".data ++ (name.data ++ ("\x22,\n        \x22members\x22: [\x7b\n    ".data ++ ((make_entries fd 5).data ++ "\n    \x7d]\n    \x7d]\n    \x7d".data)))))) (name.data ++ "-pool".data) (",\n    \x22products\x22: [\x7b\n        \x22name\x22: \x22".data ++ (name.data ++ ("\x22,\n        \x22members\x22: [\x7b\n    ".data ++ ((make_entries fd 5).data ++ "\n    \x7d]\n    \x7d]\n    \x7d".data)))) hplain_pool
    have h1 : skipWs (' ' :: '\x22' :: (name.data ++ ("-pool\x22,\n    \x22products\x22: [\x7b\n        \x22name\x22: \x22".data ++ (name.data ++ ("\x22,\n        \x22members\x22: [\x7b\n    ".data ++ ((make_entries fd 5).data ++ "\n    \x7d]\n    \x7d]\n    \x7d".data)))))) = '\x22' :: (name.data ++ ("-pool\x22,\n    \x22products\x22: [\x7b\n        \x22name\x22: \x22".data ++ (name.data ++ ("\x22,\n        \x22members\x22: [\x7b\n    ".data ++ ((make_entries fd 5).data ++ "\n    \x7d]\n    \x7d]\n    \x7d".data))))) := rfl
    rw [h1]
    have h2 : ("-pool\x22,\n    \x22products\x22: [\x7b\n        \x22name\x22: \x22".data : List Char) ++ (name.data ++ ("\x22,\n        \x22members\x22: [\x7b\n    ".data ++ ((make_entries fd 5).data ++ "\n    \x7d]\n    \x7d]\n    \x7d".data))) = "-pool".data ++ ('\x22' :: (",\n    \x22products\x22: [\x7b\n        \x22name\x22: \x22".data ++ (name.data ++ ("\x22,\n        \x22members\x22: [\x7b\n    ".data ++ ((make_entries fd 5).data ++ "\n    \x7d]\n    \x7d]\n    \x7d".data))))) := rfl
    rw [h2, ← List.append_assoc]
  have h_plfield : parseFields (fuel + fd.length + 12) ("\n    \x22asn_pool\x22: \x22".data ++ (name.data ++ ("-pool\x22,\n    \x22products\x22: [\x7b\n        \x22name\x22: \x22".data ++ (name.data ++ ("\x22,\n        \x22members\x22: [\x7b\n    ".data ++ ((make_entries fd 5).data ++ "\n    \x7d]\n    \x7d]\n    \x7d".data)))))) = some ([("asn_pool", JVal.str ⟨name.data ++ "-pool".data⟩), ("products", JVal.arr [(JVal.obj [("name", JVal.str ⟨name.data⟩), ("members", JVal.arr (fd.map member_json))])])], []) := by
    rw [show fuel + fd.length + 12 = fuel + fd.length + 11 + 1 from rfl]
    rw [parseFields_field_comma (fuel + fd.length + 11) ("\n    \x22asn_pool\x22: \x22".data ++ (name.data ++ ("-pool\x22,\n    \x22products\x22: [\x7b\n        \x22name\x22: \x22".data ++ (name.data ++ ("\x22,\n        \x22members\x22: [\x7b\n    ".data ++ ((make_entries fd 5).data ++ "\n    \x7d]\n    \x7d]\n    \x7d".data)))))) "asn_pool".data (' ' :: '\x22' :: (name.data ++ ("-pool\x22,\n    \x22products\x22: [\x7b\n        \x22name\x22: \x22".data ++ (name.data ++ ("\x22,\n        \x22members\x22: [\x7b\n    ".data ++ ((make_entries fd 5).data ++ "\n    \x7d]\n    \x7d]\n    \x7d".data))))))
      (JVal.str ⟨name.data ++ "-pool".data⟩) (",\n    \x22products\x22: [\x7b\n        \x22name\x22: \x22".data ++ (name.data ++ ("\x22,\n        \x22members\x22: [\x7b\n    ".data ++ ((make_entries fd 5).data ++ "\n    \x7d]\n    \x7d]\n    \x7d".data)))) ("\n    \x22products\x22: [\x7b\n        \x22name\x22: \x22".data ++ (name.data ++ ("\x22,\n        \x22members\x22: [\x7b\n    ".data ++ ((make_entries fd 5).data ++ "\n    \x7d]\n    \x7d]\n    \x7d".data)))) (by decide) rfl h_plval rfl]
    rw [h_pfield]
  have h_tval : parseVal (fuel + fd.length + 12) (" \x22dummy\x22,\n    \x22asn_pool\x22: \x22".data ++ (name.data ++ ("-pool\x22,\n    \x22products\x22: [\x7b\n        \x22name\x22: \x22".data ++ (name.data ++ ("\x22,\n        \x22members\x22: [\x7b\n    ".data ++ ((make_entries fd 5).data ++ "\n    \x7d]\n    \x7d]\n    \x7d".data)))))) = some (.str ⟨"dummy".data⟩, (",\n    \x22asn_pool\x22: \x22".data ++ (name.data ++ ("-pool\x22,\n    \x22products\x22: [\x7b\n        \x22name\x22: \x22".data ++ (name.data ++ ("\x22,\n        \x22members\x22: [\x7b\n    ".data ++ ((make_entries fd 5).data ++ "\n    \x7d]\n    \x7d]\n    \x7d".data))))))) := by
    rw [show fuel + fd.length + 12 = fuel + fd.length + 11 + 1 from rfl]
    exact parseVal_str2 (fuel + fd.length + 11) (" \x22dummy\x22,\n    \x22asn_pool\x22: \x22".data ++ (name.data ++ ("-pool\x22,\n    \x22products\x22: [\x7b\n        \x22name\x22: \x22".data ++ (name.data ++ ("\x22,\n        \x22members\x22: [\x7b\n    ".data ++ ((make_entries fd 5).data ++ "\n    \x7d]\n    \x7d]\n    \x7d".data)))))) "dummy".data (",\n    \x22asn_pool\x22: \x22".data ++ (name.data ++ ("-pool\x22,\n    \x22products\x22: [\x7b\n        \x22name\x22: \x22".data ++ (name.data ++ ("\x22,\n        \x22members\x22: [\x7b\n    ".data ++ ((make_entries fd 5).data ++ "\n    \x7d]\n    \x7d]\n    \x7d".data)))))) (by decide) rfl
  have h_tfield : parseFields (fuel + fd.length + 13) ("\n    \x22target\x22: \x22dummy\x22,\n    \x22asn_pool\x22: \x22".data ++ (name.data ++ ("-pool\x22,\n    \x22products\x22: [\x7b\n        \x22name\x22: \x22".data ++ (name.data ++ ("\x22,\n        \x22members\x22: [\x7b\n    ".data ++ ((make_entries fd 5).data ++ "\n    \x7d]\n    \x7d]\n    \x7d".data)))))) = some ([("target", JVal.str ⟨"dummy".data⟩), ("asn_pool", JVal.str ⟨name.data ++ "-pool".data⟩), ("products", JVal.arr [(JVal.obj [("name", JVal.str ⟨name.data⟩), ("members", JVal.arr (fd.map member_json))])])], []) := by
    rw [show fuel + fd.length + 13 = fuel + fd.length + 12 + 1 from rfl]
    rw [parseFields_field_comma (fuel + fd.length + 12) ("\n    \x22target\x22: \x22dummy\x22,\n    \x22asn_pool\x22: \x22".data ++ (name.data ++ ("-pool\x22,\n    \x22products\x22: [\x7b\n        \x22name\x22: \x22".data ++ (name.data ++ ("\x22,\n        \x22members\x22: [\x7b\n    ".data ++ ((make_entries fd 5).data ++ "\n    \x7d]\n    \x7d]\n    \x7d".data)))))) "target".data (" \x22dummy\x22,\n    \x22asn_pool\x22: \x22".data ++ (name.data ++ ("-pool\x22,\n    \x22products\x22: [\x7b\n        \x22name\x22: \x22".data ++ (name.data ++ ("\x22,\n        \x22members\x22: [\x7b\n    ".data ++ ((make_entries fd 5).data ++ "\n    \x7d]\n    \x7d]\n    \x7d".data))))))
      (JVal.str ⟨"dummy".data⟩) (",\n    \x22asn_pool\x22: \x22".data ++ (name.data ++ ("-pool\x22,\n    \x22products\x22: [\x7b\n        \x22name\x22: \x22".data ++ (name.data ++ ("\x22,\n        \x22members\x22: [\x7b\n    ".data ++ ((make_entries fd 5).data ++ "\n    \x7d]\n    \x7d]\n    \x7d".data)))))) ("\n    \x22asn_pool\x22: \x22".data ++ (name.data ++ ("-pool\x22,\n    \x22products\x22: [\x7b\n        \x22name\x22: \x22".data ++ (name.data ++ ("\x22,\n        \x22members\x22: [\x7b\n    ".data ++ ((make_entries fd 5).data ++ "\n    \x7d]\n    \x7d]\n    \x7d".data)))))) (by decide) rfl h_tval rfl]
    rw [h_plfield]
  have h_ival : parseVal (fuel + fd.length + 13) (" \x22c1001\x22,\n    \x22target\x22: \x22dummy\x22,\n    \x22asn_pool\x22: \x22".data ++ (name.data ++ ("-pool\x22,\n    \x22products\x22: [\x7b\n        \x22name\x22: \x22".data ++ (name.data ++ ("\x22,\n        \x22members\x22: [\x7b\n    ".data ++ ((make_entries fd 5).data ++ "\n    \x7d]\n    \x7d]\n    \x7d".data)))))) = some (.str ⟨"c1001".data⟩, (",\n    \x22target\x22: \x22dummy\x22,\n    \x22asn_pool\x22: \x22".data ++ (name.data ++ ("-pool\x22,\n    \x22products\x22: [\x7b\n        \x22name\x22: \x22".data ++ (name.data ++ ("\x22,\n        \x22members\x22: [\x7b\n    ".data ++ ((make_entries fd 5).data ++ "\n    \x7d]\n    \x7d]\n    \x7d".data))))))) := by
    rw [show fuel + fd.length + 13 = fuel + fd.length + 12 + 1 from rfl]
    exact parseVal_str2 (fuel + fd.length + 12) (" \x22c1001\x22,\n    \x22target\x22: \x22dummy\x22,\n    \x22asn_pool\x22: \x22".data ++ (name.data ++ ("-pool\x22,\n    \x22products\x22: [\x7b\n        \x22name\x22: \x22".data ++ (name.data ++ ("\x22,\n        \x22members\x22: [\x7b\n    ".data ++ ((make_entries fd 5).data ++ "\n    \x7d]\n    \x7d]\n    \x7d".data)))))) "c1001".data (",\n    \x22target\x22: \x22dummy\x22,\n    \x22asn_pool\x22: \x22".data ++ (name.data ++ ("-pool\x22,\n    \x22products\x22: [\x7b\n        \x22name\x22: \x22".data ++ (name.data ++ ("\x22,\n        \x22members\x22: [\x7b\n    ".data ++ ((make_entries fd 5).data ++ "\n    \x7d]\n    \x7d]\n    \x7d".data)))))) (by decide) rfl
  have h_ifield : parseFields (fuel + fd.length + 14) ("\n    \x22asn_id\x22: \x22c1001\x22,\n    \x22target\x22: \x22dummy\x22,\n    \x22asn_pool\x22: \x22".data ++ (name.data ++ ("-pool\x22,\n    \x22products\x22: [\x7b\n        \x22name\x22: \x22".data ++ (name.data ++ ("\x22,\n        \x22members\x22: [\x7b\n    ".data ++ ((make_entries fd 5).data ++ "\n    \x7d]\n    \x7d]\n    \x7d".data))))))
      = some ([("asn_id", JVal.str ⟨"c1001".data⟩), ("target", JVal.str ⟨"dummy".data⟩), ("asn_pool", JVal.str ⟨name.data ++ "-pool".data⟩), ("products", JVal.arr [(JVal.obj [("name", JVal.str ⟨name.data⟩), ("members", JVal.arr (fd.map member_json))])])], []) := by
    rw [show fuel + fd.length + 14 = fuel + fd.length + 13 + 1 from rfl]
    rw [parseFields_field_comma (fuel + fd.length + 13) ("\n    \x22asn_id\x22: \x22c1001\x22,\n    \x22target\x22: \x22dummy\x22,\n    \x22asn_pool\x22: \x22".data ++ (name.data ++ ("-pool\x22,\n    \x22products\x22: [\x7b\n        \x22name\x22: \x22".data ++ (name.data ++ ("\x22,\n        \x22members\x22: [\x7b\n    ".data ++ ((make_entries fd 5).data ++ "\n    \x7d]\n    \x7d]\n    \x7d".data)))))) "asn_id".data (" \x22c1001\x22,\n    \x22target\x22: \x22dummy\x22,\n    \x22asn_pool\x22: \x22".data ++ (name.data ++ ("-pool\x22,\n    \x22products\x22: [\x7b\n        \x22name\x22: \x22".data ++ (name.data ++ ("\x22,\n        \x22members\x22: [\x7b\n    ".data ++ ((make_entries fd 5).data ++ "\n    \x7d]\n    \x7d]\n    \x7d".data))))))
      (JVal.str ⟨"c1001".data⟩) (",\n    \x22target\x22: \x22dummy\x22,\n    \x22asn_pool\x22: \x22".data ++ (name.data ++ ("-pool\x22,\n    \x22products\x22: [\x7b\n        \x22name\x22: \x22".data ++ (name.data ++ ("\x22,\n        \x22members\x22: [\x7b\n    ".data ++ ((make_entries fd 5).data ++ "\n    \x7d]\n    \x7d]\n    \x7d".data)))))) ("\n    \x22target\x22: \x22dummy\x22,\n    \x22asn_pool\x22: \x22".data ++ (name.data ++ ("-pool\x22,\n    \x22products\x22: [\x7b\n        \x22name\x22: \x22".data ++ (name.data ++ ("\x22,\n        \x22members\x22: [\x7b\n    ".data ++ ((make_entries fd 5).data ++ "\n    \x7d]\n    \x7d]\n    \x7d".data)))))) (by decide) rfl h_ival rfl]
    rw [h_tfield]
  have h_pgval : parseVal (fuel + fd.length + 14) (' ' :: '\x22' :: (name.data ++ ("\x22,\n    \x22asn_id\x22: \x22c1001\x22,\n    \x22target\x22: \x22dummy\x22,\n    \x22asn_pool\x22: \x22".data ++ (name.data ++ ("-pool\x22,\n    \x22products\x22: [\x7b\n        \x22name\x22: \x22".data ++ (name.data ++ ("\x22,\n        \x22members\x22: [\x7b\n    ".data ++ ((make_entries fd 5).data ++ "\n    \x7d]\n    \x7d]\n    \x7d".data)))))))) = some (.str ⟨name.data⟩, (",\n    \x22asn_id\x22: \x22c1001\x22,\n    \x22target\x22: \x22dummy\x22,\n    \x22asn_pool\x22: \x22".data ++ (name.data ++ ("-pool\x22,\n    \x22products\x22: [\x7b\n        \x22name\x22: \x22".data ++ (name.data ++ ("\x22,\n        \x22members\x22: [\x7b\n    ".data ++ ((make_entries fd 5).data ++ "\n    \x7d]\n    \x7d]\n    \x7d".data))))))) := by
    rw [show fuel + fd.length + 14 = fuel + fd.length + 13 + 1 from rfl]
    exact parseVal_str2 (fuel + fd.length + 13) (' ' :: '\x22' :: (name.data ++ ("\x22,\n    \x22asn_id\x22: \x22c1001\x22,\n    \x22target\x22: \x22dummy\x22,\n    \x22asn_pool\x22: \x22".data ++ (name.data ++ ("-pool\x22,\n    \x22products\x22: [\x7b\n        \x22name\x22: \x22".data ++ (name.data ++ ("\x22,\n        \x22members\x22: [\x7b\n    ".data ++ ((make_entries fd 5).data ++ "\n    \x7d]\n    \x7d]\n    \x7d".data)))))))) name.data (",\n    \x22asn_id\x22: \x22c1001\x22,\n    \x22target\x22: \x22dummy\x22,\n    \x22asn_pool\x22: \x22".data ++ (name.data ++ ("-pool\x22,\n    \x22products\x22: [\x7b\n        \x22name\x22: \x22".data ++ (name.data ++ ("\x22,\n        \x22members\x22: [\x7b\n    ".data ++ ((make_entries fd 5).data ++ "\n    \x7d]\n    \x7d]\n    \x7d".data)))))) hname rfl
  have h_pgfield : parseFields (fuel + fd.length + 15) ("\n    \x22program\x22: \x22".data ++ (name.data ++ ("\x22,\n    \x22asn_id\x22: \x22c1001\x22,\n    \x22target\x22: \x22dummy\x22,\n    \x22asn_pool\x22: \x22".data ++ (name.data ++ ("-pool\x22,\n    \x22products\x22: [\x7b\n        \x22name\x22: \x22".data ++ (name.data ++ ("\x22,\n        \x22members\x22: [\x7b\n    ".data ++ ((make_entries fd 5).data ++ "\n    \x7d]\n    \x7d]\n    \x7d".data))))))))
      = some ([("program", JVal.str ⟨name.data⟩), ("asn_id", JVal.str ⟨"c1001".data⟩), ("target", JVal.str ⟨"dummy".data⟩), ("asn_pool", JVal.str ⟨name.data ++ "-pool".data⟩), ("products", JVal.arr [(JVal.obj [("name", JVal.str ⟨name.data⟩), ("members", JVal.arr (fd.map member_json))])])], []) := by
    rw [show fuel + fd.length + 15 = fuel + fd.length + 14 + 1 from rfl]
    rw [parseFields_field_comma (fuel + fd.length + 14) ("\n    \x22program\x22: \x22".data ++ (name.data ++ ("\x22,\n    \x22asn_id\x22: \x22c1001\x22,\n    \x22target\x22: \x22dummy\x22,\n    \x22asn_pool\x22: \x22".data ++ (name.data ++ ("-pool\x22,\n    \x22products\x22: [\x7b\n        \x22name\x22: \x22".data ++ (name.data ++ ("\x22,\n        \x22members\x22: [\x7b\n    ".data ++ ((make_entries fd 5).data ++ "\n    \x7d]\n    \x7d]\n    \x7d".data)))))))) "program".data (' ' :: '\x22' :: (name.data ++ ("\x22,\n    \x22asn_id\x22: \x22c1001\x22,\n    \x22target\x22: \x22dummy\x22,\n    \x22asn_pool\x22: \x22".data ++ (name.data ++ ("-pool\x22,\n    \x22products\x22: [\x7b\n        \x22name\x22: \x22".data ++ (name.data ++ ("\x22,\n        \x22members\x22: [\x7b\n    ".data ++ ((make_entries fd 5).data ++ "\n    \x7d]\n    \x7d]\n    \x7d".data))))))))
      (JVal.str ⟨name.data⟩) (",\n    \x22asn_id\x22: \x22c1001\x22,\n    \x22target\x22: \x22dummy\x22,\n    \x22asn_pool\x22: \x22".data ++ (name.data ++ ("-pool\x22,\n    \x22products\x22: [\x7b\n        \x22name\x22: \x22".data ++ (name.data ++ ("\x22,\n        \x22members\x22: [\x7b\n    ".data ++ ((make_entries fd 5).data ++ "\n    \x7d]\n    \x7d]\n    \x7d".data)))))) ("\n    \x22asn_id\x22: \x22c1001\x22,\n    \x22target\x22: \x22dummy\x22,\n    \x22asn_pool\x22: \x22".data ++ (name.data ++ ("-pool\x22,\n    \x22products\x22: [\x7b\n        \x22name\x22: \x22".data ++ (name.data ++ ("\x22,\n        \x22members\x22: [\x7b\n    ".data ++ ((make_entries fd 5).data ++ "\n    \x7d]\n    \x7d]\n    \x7d".data)))))) (by decide) rfl h_pgval rfl]
    rw [h_ifield]
  have h_rval : parseVal (fuel + fd.length + 15) (" \x22candidate_Asn_Lv3Coron\x22,\n    \x22program\x22: \x22".data ++ (name.data ++ ("\x22,\n    \x22asn_id\x22: \x22c1001\x22,\n    \x22target\x22: \x22dummy\x22,\n    \x22asn_pool\x22: \x22".data ++ (name.data ++ ("-pool\x22,\n    \x22products\x22: [\x7b\n        \x22name\x22: \x22".data ++ (name.data ++ ("\x22,\n        \x22members\x22: [\x7b\n    ".data ++ ((make_entries fd 5).data ++ "\n    \x7d]\n    \x7d]\n    \x7d".data)))))))) = some (.str ⟨"candidate_Asn_Lv3Coron".data⟩, (",\n    \x22program\x22: \x22".data ++ (name.data ++ ("\x22,\n    \x22asn_id\x22: \x22c1001\x22,\n    \x22target\x22: \x22dummy\x22,\n    \x22asn_pool\x22: \x22".data ++ (name.data ++ ("-pool\x22,\n    \x22products\x22: [\x7b\n        \x22name\x22: \x22".data ++ (name.data ++ ("\x22,\n        \x22members\x22: [\x7b\n    ".data ++ ((make_entries fd 5).data ++ "\n    \x7d]\n    \x7d]\n    \x7d".data))))))))) := by
    rw [show fuel + fd.length + 15 = fuel + fd.length + 14 + 1 from rfl]
    exact parseVal_str2 (fuel + fd.length + 14) (" \x22candidate_Asn_Lv3Coron\x22,\n    \x22program\x22: \x22".data ++ (name.data ++ ("\x22,\n    \x22asn_id\x22: \x22c1001\x22,\n    \x22target\x22: \x22dummy\x22,\n    \x22asn_pool\x22: \x22".data ++ (name.data ++ ("-pool\x22,\n    \x22products\x22: [\x7b\n        \x22name\x22: \x22".data ++ (name.data ++ ("\x22,\n        \x22members\x22: [\x7b\n    ".data ++ ((make_entries fd 5).data ++ "\n    \x7d]\n    \x7d]\n    \x7d".data)))))))) "candidate_Asn_Lv3Coron".data (",\n    \x22program\x22: \x22".data ++ (name.data ++ ("\x22,\n    \x22asn_id\x22: \x22c1001\x22,\n    \x22target\x22: \x22dummy\x22,\n    \x22asn_pool\x22: \x22".data ++ (name.data ++ ("-pool\x22,\n    \x22products\x22: [\x7b\n        \x22name\x22: \x22".data ++ (name.data ++ ("\x22,\n        \x22members\x22: [\x7b\n    ".data ++ ((make_entries fd 5).data ++ "\n    \x7d]\n    \x7d]\n    \x7d".data)))))))) (by decide) rfl
  have h_rfield : parseFields (fuel + fd.length + 16) ("\n    \x22asn_rule\x22: \x22candidate_Asn_Lv3Coron\x22,\n    \x22program\x22: \x22".data ++ (name.data ++ ("\x22,\n    \x22asn_id\x22: \x22c1001\x22,\n    \x22target\x22: \x22dummy\x22,\n    \x22asn_pool\x22: \x22".data ++ (name.data ++ ("-pool\x22,\n    \x22products\x22: [\x7b\n        \x22name\x22: \x22".data ++ (name.data ++ ("\x22,\n        \x22members\x22: [\x7b\n    ".data ++ ((make_entries fd 5).data ++ "\n    \x7d]\n    \x7d]\n    \x7d".data))))))))
      = some ([("asn_rule", JVal.str ⟨"candidate_Asn_Lv3Coron".data⟩), ("program", JVal.str ⟨name.data⟩), ("asn_id", JVal.str ⟨"c1001".data⟩), ("target", JVal.str ⟨"dummy".data⟩), ("asn_pool", JVal.str ⟨name.data ++ "-pool".data⟩), ("products", JVal.arr [(JVal.obj [("name", JVal.str ⟨name.data⟩), ("members", JVal.arr (fd.map member_json))])])], []) := by
    rw [show fuel + fd.length + 16 = fuel + fd.length + 15 + 1 from rfl]
    rw [parseFields_field_comma (fuel + fd.length + 15) ("\n    \x22asn_rule\x22: \x22candidate_Asn_Lv3Coron\x22,\n    \x22program\x22: \x22".data ++ (name.data ++ ("\x22,\n    \x22asn_id\x22: \x22c1001\x22,\n    \x22target\x22: \x22dummy\x22,\n    \x22asn_pool\x22: \x22".data ++ (name.data ++ ("-pool\x22,\n    \x22products\x22: [\x7b\n        \x22name\x22: \x22".data ++ (name.data ++ ("\x22,\n        \x22members\x22: [\x7b\n    ".data ++ ((make_entries fd 5).data ++ "\n    \x7d]\n    \x7d]\n    \x7d".data)))))))) "asn_rule".data (" \x22candidate_Asn_Lv3Coron\x22,\n    \x22program\x22: \x22".data ++ (name.data ++ ("\x22,\n    \x22asn_id\x22: \x22c1001\x22,\n    \x22target\x22: \x22dummy\x22,\n    \x22asn_pool\x22: \x22".data ++ (name.data ++ ("-pool\x22,\n    \x22products\x22: [\x7b\n        \x22name\x22: \x22".data ++ (name.data ++ ("\x22,\n        \x22members\x22: [\x7b\n    ".data ++ ((make_entries fd 5).data ++ "\n    \x7d]\n    \x7d]\n    \x7d".data))))))))
      (JVal.str ⟨"candidate_Asn_Lv3Coron".data⟩) (",\n    \x22program\x22: \x22".data ++ (name.data ++ ("\x22,\n    \x22asn_id\x22: \x22c1001\x22,\n    \x22target\x22: \x22dummy\x22,\n    \x22asn_pool\x22: \x22".data ++ (name.data ++ ("-pool\x22,\n    \x22products\x22: [\x7b\n        \x22name\x22: \x22".data ++ (name.data ++ ("\x22,\n        \x22members\x22: [\x7b\n    ".data ++ ((make_entries fd 5).data ++ "\n    \x7d]\n    \x7d]\n    \x7d".data)))))))) ("\n    \x22program\x22: \x22".data ++ (name.data ++ ("\x22,\n    \x22asn_id\x22: \x22c1001\x22,\n    \x22target\x22: \x22dummy\x22,\n    \x22asn_pool\x22: \x22".data ++ (name.data ++ ("-pool\x22,\n    \x22products\x22: [\x7b\n        \x22name\x22: \x22".data ++ (name.data ++ ("\x22,\n        \x22members\x22: [\x7b\n    ".data ++ ((make_entries fd 5).data ++ "\n    \x7d]\n    \x7d]\n    \x7d".data)))))))) (by decide) rfl h_rval rfl]
    rw [h_pgfield]
  have h_atval : parseVal (fuel + fd.length + 16) (" \x22coron3\x22,\n    \x22asn_rule\x22: \x22candidate_Asn_Lv3Coron\x22,\n    \x22program\x22: \x22".data ++ (name.data ++ ("\x22,\n    \x22asn_id\x22: \x22c1001\x22,\n    \x22target\x22: \x22dummy\x22,\n    \x22asn_pool\x22: \x22".data ++ (name.data ++ ("-pool\x22,\n    \x22products\x22: [\x7b\n        \x22name\x22: \x22".data ++ (name.data ++ ("\x22,\n        \x22members\x22: [\x7b\n    ".data ++ ((make_entries fd 5).data ++ "\n    \x7d]\n    \x7d]\n    \x7d".data)))))))) = some (.str ⟨"coron3".data⟩, (",\n    \x22asn_rule\x22: \x22candidate_Asn_Lv3Coron\x22,\n    \x22program\x22: \x22".data ++ (name.data ++ ("\x22,\n    \x22asn_id\x22: \x22c1001\x22,\n    \x22target\x22: \x22dummy\x22,\n    \x22asn_pool\x22: \x22".data ++ (name.data ++ ("-pool\x22,\n    \x22products\x22: [\x7b\n        \x22name\x22: \x22".data ++ (name.data ++ ("\x22,\n        \x22members\x22: [\x7b\n    ".data ++ ((make_entries fd 5).data ++ "\n    \x7d]\n    \x7d]\n    \x7d".data))))))))) := by
    rw [show fuel + fd.length + 16 = fuel + fd.length + 15 + 1 from rfl]
    exact parseVal_str2 (fuel + fd.length + 15) (" \x22coron3\x22,\n    \x22asn_rule\x22: \x22candidate_Asn_Lv3Coron\x22,\n    \x22program\x22: \x22".data ++ (name.data ++ ("\x22,\n    \x22asn_id\x22: \x22c1001\x22,\n    \x22target\x22: \x22dummy\x22,\n    \x22asn_pool\x22: \x22".data ++ (name.data ++ ("-pool\x22,\n    \x22products\x22: [\x7b\n        \x22name\x22: \x22".data ++ (name.data ++ ("\x22,\n        \x22members\x22: [\x7b\n    ".data ++ ((make_entries fd 5).data ++ "\n    \x7d]\n    \x7d]\n    \x7d".data)))))))) "coron3".data (",\n    \x22asn_rule\x22: \x22candidate_Asn_Lv3Coron\x22,\n    \x22program\x22: \x22".data ++ (name.data ++ ("\x22,\n    \x22asn_id\x22: \x22c1001\x22,\n    \x22target\x22: \x22dummy\x22,\n    \x22asn_pool\x22: \x22".data ++ (name.data ++ ("-pool\x22,\n    \x22products\x22: [\x7b\n        \x22name\x22: \x22".data ++ (name.data ++ ("\x22,\n        \x22members\x22: [\x7b\n    ".data ++ ((make_entries fd 5).data ++ "\n    \x7d]\n    \x7d]\n    \x7d".data)))))))) (by decide) rfl
  have h_atfield : parseFields (fuel + fd.length + 17) ('\x22' :: ("asn_type\x22: \x22coron3\x22,\n    \x22asn_rule\x22: \x22candidate_Asn_Lv3Coron\x22,\n    \x22program\x22: \x22".data ++ (name.data ++ ("\x22,\n    \x22asn_id\x22: \x22c1001\x22,\n    \x22target\x22: \x22dummy\x22,\n    \x22asn_pool\x22: \x22".data ++ (name.data ++ ("-pool\x22,\n    \x22products\x22: [\x7b\n        \x22name\x22: \x22".data ++ (name.data ++ ("\x22,\n        \x22members\x22: [\x7b\n    ".data ++ ((make_entries fd 5).data ++ "\n    \x7d]\n    \x7d]\n    \x7d".data)))))))))
      = some ([("asn_type", JVal.str ⟨"coron3".data⟩), ("asn_rule", JVal.str ⟨"candidate_Asn_Lv3Coron".data⟩), ("program", JVal.str ⟨name.data⟩), ("asn_id", JVal.str ⟨"c1001".data⟩), ("target", JVal.str ⟨"dummy".data⟩), ("asn_pool", JVal.str ⟨name.data ++ "-pool".data⟩), ("products", JVal.arr [(JVal.obj [("name", JVal.str ⟨name.data⟩), ("members", JVal.arr (fd.map member_json))])])], []) := by
    rw [show fuel + fd.length + 17 = fuel + fd.length + 16 + 1 from rfl]
    rw [parseFields_field_comma (fuel + fd.length + 16) ('\x22' :: ("asn_type\x22: \x22coron3\x22,\n    \x22asn_rule\x22: \x22candidate_Asn_Lv3Coron\x22,\n    \x22program\x22: \x22".data ++ (name.data ++ ("\x22,\n    \x22asn_id\x22: \x22c1001\x22,\n    \x22target\x22: \x22dummy\x22,\n    \x22asn_pool\x22: \x22".data ++ (name.data ++ ("-pool\x22,\n    \x22products\x22: [\x7b\n        \x22name\x22: \x22".data ++ (name.data ++ ("\x22,\n        \x22members\x22: [\x7b\n    ".data ++ ((make_entries fd 5).data ++ "\n    \x7d]\n    \x7d]\n    \x7d".data))))))))) "asn_type".data (" \x22coron3\x22,\n    \x22asn_rule\x22: \x22candidate_Asn_Lv3Coron\x22,\n    \x22program\x22: \x22".data ++ (name.data ++ ("\x22,\n    \x22asn_id\x22: \x22c1001\x22,\n    \x22target\x22: \x22dummy\x22,\n    \x22asn_pool\x22: \x22".data ++ (name.data ++ ("-pool\x22,\n    \x22products\x22: [\x7b\n        \x22name\x22: \x22".data ++ (name.data ++ ("\x22,\n        \x22members\x22: [\x7b\n    ".data ++ ((make_entries fd 5).data ++ "\n    \x7d]\n    \x7d]\n    \x7d".data))))))))
      (JVal.str ⟨"coron3".data⟩) (",\n    \x22asn_rule\x22: \x22candidate_Asn_Lv3Coron\x22,\n    \x22program\x22: \x22".data ++ (name.data ++ ("\x22,\n    \x22asn_id\x22: \x22c1001\x22,\n    \x22target\x22: \x22dummy\x22,\n    \x22asn_pool\x22: \x22".data ++ (name.data ++ ("-pool\x22,\n    \x22products\x22: [\x7b\n        \x22name\x22: \x22".data ++ (name.data ++ ("\x22,\n        \x22members\x22: [\x7b\n    ".data ++ ((make_entries fd 5).data ++ "\n    \x7d]\n    \x7d]\n    \x7d".data)))))))) ("\n    \x22asn_rule\x22: \x22candidate_Asn_Lv3Coron\x22,\n    \x22program\x22: \x22".data ++ (name.data ++ ("\x22,\n    \x22asn_id\x22: \x22c1001\x22,\n    \x22target\x22: \x22dummy\x22,\n    \x22asn_pool\x22: \x22".data ++ (name.data ++ ("-pool\x22,\n    \x22products\x22: [\x7b\n        \x22name\x22: \x22".data ++ (name.data ++ ("\x22,\n        \x22members\x22: [\x7b\n    ".data ++ ((make_entries fd 5).data ++ "\n    \x7d]\n    \x7d]\n    \x7d".data)))))))) (by decide) rfl h_atval rfl]
    rw [h_rfield]
  rw [hd]
  rw [show fuel + fd.length + 18 = fuel + fd.length + 17 + 1 from rfl]
  exact parseVal_obj (fuel + fd.length + 17) ("\x7b\n    \x22asn_type\x22: \x22coron3\x22,\n    \x22asn_rule\x22: \x22candidate_Asn_Lv3Coron\x22,\n    \x22program\x22: \x22".data ++ (name.data ++ ("\x22,\n    \x22asn_id\x22: \x22c1001\x22,\n    \x22target\x22: \x22dummy\x22,\n    \x22asn_pool\x22: \x22".data ++ (name.data ++ ("-pool\x22,\n    \x22products\x22: [\x7b\n        \x22name\x22: \x22".data ++ (name.data ++ ("\x22,\n        \x22members\x22: [\x7b\n    ".data ++ ((make_entries fd 5).data ++ "\n    \x7d]\n    \x7d]\n    \x7d".data)))))))) ("\n    \x22asn_type\x22: \x22coron3\x22,\n    \x22asn_rule\x22: \x22candidate_Asn_Lv3Coron\x22,\n    \x22program\x22: \x22".data ++ (name.data ++ ("\x22,\n    \x22asn_id\x22: \x22c1001\x22,\n    \x22target\x22: \x22dummy\x22,\n    \x22asn_pool\x22: \x22".data ++ (name.data ++ ("-pool\x22,\n    \x22products\x22: [\x7b\n        \x22name\x22: \x22".data ++ (name.data ++ ("\x22,\n        \x22members\x22: [\x7b\n    ".data ++ ((make_entries fd 5).data ++ "\n    \x7d]\n    \x7d]\n    \x7d".data))))))))
    '\x22' ("asn_type\x22: \x22coron3\x22,\n    \x22asn_rule\x22: \x22candidate_Asn_Lv3Coron\x22,\n    \x22program\x22: \x22".data ++ (name.data ++ ("\x22,\n    \x22asn_id\x22: \x22c1001\x22,\n    \x22target\x22: \x22dummy\x22,\n    \x22asn_pool\x22: \x22".data ++ (name.data ++ ("-pool\x22,\n    \x22products\x22: [\x7b\n        \x22name\x22: \x22".data ++ (name.data ++ ("\x22,\n        \x22members\x22: [\x7b\n    ".data ++ ((make_entries fd 5).data ++ "\n    \x7d]\n    \x7d]\n    \x7d".data))))))))
    [("asn_type", JVal.str ⟨"coron3".data⟩), ("asn_rule", JVal.str ⟨"candidate_Asn_Lv3Coron".data⟩), ("program", JVal.str ⟨name.data⟩), ("asn_id", JVal.str ⟨"c1001".data⟩), ("target", JVal.str ⟨"dummy".data⟩), ("asn_pool", JVal.str ⟨name.data ++ "-pool".data⟩), ("products", JVal.arr [(JVal.obj [("name", JVal.str ⟨name.data⟩), ("members", JVal.arr (fd.map member_json))])])] []
    rfl rfl (by decide) h_atfield

theorem asn_line_length_ge (k v : String) : 1 ≤ (asn_line 5 k v).length := by
  unfold asn_line
  simp only [String.length_append]
  have h12 : ("\x22expname\x22: \x22" : String).length = 12 := rfl
  omega

theorem py_join_length_ge (sep : String) :
    ∀ (xs : List String), (∀ x ∈ xs, 1 ≤ x.length) → xs.length ≤ (py_join sep xs).length := by
  intro xs
  induction xs with
  | nil => intro _; simp [py_join]
  | cons x ys ih =>
    intro hall
    cases ys with
    | nil =>
      simp only [py_join, List.length_cons, List.length_nil]
      have := hall x (List.mem_cons_self x [])
      omega
    | cons y rest =>
      have h1 := hall x (List.mem_cons_self x (y :: rest))
      have h2 := ih (fun z hz => hall z (List.mem_cons_of_mem x hz))
      simp only [py_join, String.length_append, List.length_cons] at h2 ⊢
      omega

theorem make_entries_length_ge (fd : List (String × String)) :
    fd.length ≤ (make_entries fd 5).length := by
  unfold make_entries
  have := py_join_length_ge ("\n" ++ tabs 5 ++ "\x7d,\x7b\n")
    (fd.map (fun kv => asn_line 5 kv.1 kv.2))
    (by
      intro x hx
      obtain ⟨kv, hkv, rfl⟩ := List.mem_map.mp hx
      exact asn_line_length_ge kv.1 kv.2)
  simpa using this

theorem content_length_ge (name : String) (fd : List (String × String)) :
    fd.length ≤ (write_dummy_asn_content name fd).data.length := by
  have h1 : (write_dummy_asn_content name fd).data.length
      = (write_dummy_asn_content name fd).length := rfl
  rw [h1]
  unfold write_dummy_asn_content
  simp only [String.length_append]
  have := make_entries_length_ge fd
  omega

theorem parseJson_asn (name : String) (fd : List (String × String))
    (hname : name.data.all jsonPlainChar = true)
    (hfd : ∀ kv ∈ fd, kv.1.data.all jsonPlainChar = true ∧ kv.2.data.all jsonPlainChar = true)
    (hne : fd ≠ []) :
    parseJson (write_dummy_asn_content name fd) = some (expected_asn name fd) := by
  unfold parseJson
  have hge : fd.length ≤ (write_dummy_asn_content name fd).data.length :=
    content_length_ge name fd
  have hfuel : (write_dummy_asn_content name fd).data.length + 24
      = ((write_dummy_asn_content name fd).data.length + 24 - (fd.length + 18))
          + fd.length + 18 := by
    omega
  rw [hfuel]
  rw [parseVal_asn_content name fd
    ((write_dummy_asn_content name fd).data.length + 24 - (fd.length + 18)) hname hfd hne]
  rfl

/-- C6: for every nonempty file dictionary whose keys and values contain no
characters requiring JSON escaping (product name likewise plain),
`write_dummy_asn` writes a file whose path carries the `.json` suffix and
whose content parses as JSON with `asn_type` `"coron3"` and exactly one
product, whose members list contains exactly one entry per dictionary entry
with `"expname"` the key and `"exptype"` the value. (Amended from the
original claim by requiring the dictionary nonempty: an empty dictionary
still produces one member object, an empty one.) -/
theorem write_dummy_asn_manifest (name fn : String) (fd : List (String × String))
    (hname : name.data.all jsonPlainChar = true)
    (hfd : ∀ kv ∈ fd, kv.1.data.all jsonPlainChar = true ∧ kv.2.data.all jsonPlainChar = true)
    (hne : fd ≠ []) :
    (∃ stem, write_dummy_asn_filename fn = stem ++ ".json") ∧
    ∃ j, parseJson (write_dummy_asn_content name fd) = some j ∧
      jget j "asn_type" = some (.str "coron3") ∧
      ∃ p ms, jget j "products" = some (.arr [p]) ∧
        jget p "members" = some (.arr ms) ∧
        ms = fd.map member_json := by
  refine ⟨⟨(py_stem_ext fn).1, rfl⟩,
    expected_asn name fd, parseJson_asn name fd hname hfd hne, rfl, ?_⟩
  exact ⟨_, _, rfl, rfl, rfl⟩

/-- Witness for C6 at a concrete name and one-entry file dictionary. -/
theorem write_dummy_asn_manifest_witness :
    (∃ stem, write_dummy_asn_filename "mydummy.fits" = stem ++ ".json") ∧
    ∃ j, parseJson (write_dummy_asn_content "nm" [("f1.fits", "science")]) = some j ∧
      jget j "asn_type" = some (.str "coron3") ∧
      ∃ p ms, jget j "products" = some (.arr [p]) ∧
        jget p "members" = some (.arr ms) ∧
        ms = [("f1.fits", "science")].map member_json :=
  write_dummy_asn_manifest "nm" "mydummy.fits" [("f1.fits", "science")]
    (by decide) (by decide) (by decide)

set_option maxRecDepth 8192 in
/-- The original, unamended C6 is false at the empty file dictionary: the
produced manifest parses, but its members list holds one empty member
object, not the empty list the claim requires. -/
theorem write_dummy_asn_manifest_counterexample :
    ¬ ∃ j, parseJson (write_dummy_asn_content "nm" []) = some j ∧
        manifest_members j = some (([] : List (String × String)).map member_json) := by
  rintro ⟨j, hj, hm⟩
  have e1 : (parseJson (write_dummy_asn_content "nm" [])).bind manifest_members
      = some [JVal.obj []] := by rfl
  rw [hj] at e1
  simp only [Option.some_bind] at e1
  have hm' : manifest_members j = some [] := hm
  rw [hm'] at e1
  simp at e1
